import Mathlib

/-!
# ShoreSquad front-end: a shallow embedding of `js/app.js`

The development follows the classes of `js/app.js`:

* `EventsManager` (lines 276-464): the in-memory event list, the derived
  filtered view and the card grid rendered into `#events-grid`;
* `ShoreSquadApp.showNotification` (lines 1051-1072): transient notification
  elements appended to `document.body`, each with a 5000 ms removal timer and a
  close button;
* `WeatherService` (lines 196-273): the per-coordinate weather cache.

JavaScript objects become structures, `this` becomes an explicit state argument,
an `async` method is split at its `await` into the part that runs before the
suspension and the part that runs on resumption, and the browser clock and timer
queue are explicit fields of the page state.
-/

namespace ShoreSquad

/-! ## Events: data model -/

/-- One event record, with the fields of the objects resolved by `fetchEvents`
(lines 323-352). The `date` field holds the local date-time literal handed to
`new Date`. -/
structure Event where
  id : Nat
  title : String
  date : String
  location : String
  participants : Nat
  organizer : String
  image : String
  tags : List String
deriving DecidableEq, Repr

/-- A `.filter-btn` element: its `data-filter` attribute (absent on a button
without one) and whether its class list holds `active`. -/
structure FilterBtn where
  dataFilter : Option String
  active : Bool
deriving DecidableEq, Repr

/-- The option bag of `Intl.DateTimeFormat` as far as `Utils.formatDate` uses it. -/
structure DateTimeOptions where
  year : Option String
  month : Option String
  day : Option String
  hour : Option String
  minute : Option String
deriving DecidableEq, Repr

/-- The object-spread `{ ...defaults, ...options }`: a key present in `options`
overrides the default. -/
def DateTimeOptions.spread (defaults options : DateTimeOptions) : DateTimeOptions :=
  { year := options.year.orElse (fun _ => defaults.year)
    month := options.month.orElse (fun _ => defaults.month)
    day := options.day.orElse (fun _ => defaults.day)
    hour := options.hour.orElse (fun _ => defaults.hour)
    minute := options.minute.orElse (fun _ => defaults.minute) }

/-- The `defaultOptions` of `Utils.formatDate` (lines 106-112). -/
def formatDateDefaults : DateTimeOptions :=
  { year := some "numeric", month := some "short", day := some "numeric",
    hour := some "2-digit", minute := some "2-digit" }

/-- `Utils.formatDate` (lines 105-116). The browser formatter
`new Intl.DateTimeFormat(en-US, options).format(new Date(date))` is the
parameter `intl`. -/
def formatDate (intl : DateTimeOptions → String → String) (date : String)
    (options : DateTimeOptions) : String :=
  intl (formatDateDefaults.spread options) date

/-- The state of an `EventsManager` together with the part of the document it
reads and writes: the four fields set by the constructor (lines 278-281), the
`.filter-btn` elements, the `innerHTML` of `#events-grid` (`none` when the page
has no such element) and the number of `loadEvents` calls suspended at
`await this.fetchEvents()`. -/
structure EventsManager where
  events : List Event
  filteredEvents : List Event
  currentFilter : String
  loadingMore : Bool
  filterBtns : List FilterBtn
  eventsGrid : Option String
  pendingLoads : Nat
deriving DecidableEq, Repr

/-! ## Events: operations -/

/-- The first object of the array resolved by `fetchEvents` (lines 323-332). -/
def mockEvent1 : Event :=
  { id := 1, title := "Santa Monica Beach Cleanup", date := "2024-12-15T09:00:00",
    location := "Santa Monica, CA", participants := 23, organizer := "Ocean Warriors",
    image := "https://via.placeholder.com/300x200?text=Beach+Cleanup",
    tags := ["beach", "nearby", "this-week"] }

/-- The second object of the array (lines 333-342). -/
def mockEvent2 : Event :=
  { id := 2, title := "Malibu Coastal Restoration", date := "2024-12-18T08:30:00",
    location := "Malibu, CA", participants := 15, organizer := "Coastal Guardians",
    image := "https://via.placeholder.com/300x200?text=Coastal+Cleanup",
    tags := ["beach", "restoration"] }

/-- The third object of the array (lines 343-352). -/
def mockEvent3 : Event :=
  { id := 3, title := "Hermosa Beach Squad Meetup", date := "2024-12-20T10:00:00",
    location := "Hermosa Beach, CA", participants := 8, organizer := "Beach Squad LA",
    image := "https://via.placeholder.com/300x200?text=Squad+Meetup",
    tags := ["beach", "my-crew", "this-week"] }

/-- The array resolved by `fetchEvents` (lines 322-353). -/
def fetchEvents : List Event :=
  [mockEvent1, mockEvent2, mockEvent3]

/-- The empty-state markup assigned to `container.innerHTML` at lines 383-389. -/
def noEventsHtml : String :=
  "\n                <div class=\"no-events\">\n                    <h3>No events found</h3>\n                    <p>Try adjusting your filters or create a new event!</p>\n                    <button class=\"btn btn-primary\">Create Event</button>\n                </div>\n            "

/-- The markup assigned by `renderError` (lines 454-462). -/
def eventsErrorHtml : String :=
  "\n            <div class=\"events-error\">\n                <h3>Oops! Something went wrong</h3>\n                <p>We couldn\x27t load events right now. Please try again later.</p>\n                <button class=\"btn btn-primary\" onclick=\"eventsManager.loadEvents()\">\n                    Try Again\n                </button>\n            </div>\n        "

/-- The text before the first interpolation of the card template (lines 398-399). -/
def cardHead : String :=
  "\n            <article class=\"event-card\" data-event-id=\""

/-- Everything of the card template after the first interpolated `event.id`
(lines 399-428). All three `formatDate` calls pass one key that the defaults
already carry, as the source does. -/
def cardBody (intl : DateTimeOptions → String → String) (event : Event) : String :=
  "\">\n                <div class=\"event-image\">\n                    <img src=\""
  ++ event.image
  ++ "\" alt=\""
  ++ event.title
  ++ "\" loading=\"lazy\">\n                    <div class=\"event-date\">\n                        <span class=\"event-month\">"
  ++ formatDate intl event.date
      { year := none, month := some "short", day := none, hour := none, minute := none }
  ++ "</span>\n                        <span class=\"event-day\">"
  ++ formatDate intl event.date
      { year := none, month := none, day := some "numeric", hour := none, minute := none }
  ++ "</span>\n                    </div>\n                </div>\n                \n                <div class=\"event-content\">\n                    <h3 class=\"event-title\">"
  ++ event.title
  ++ "</h3>\n                    <div class=\"event-meta\">\n                        <div class=\"event-location\">\uF8FF\u00FC\u00EC\u00E7 "
  ++ event.location
  ++ "</div>\n                        <div class=\"event-time\">\uF8FF\u00FC\u00EF\u00ED "
  ++ formatDate intl event.date
      { year := none, month := none, day := none, hour := some "2-digit",
        minute := some "2-digit" }
  ++ "</div>\n                        <div class=\"event-participants\">\uF8FF\u00FC\u00EB\u2022 "
  ++ toString event.participants
  ++ " joined</div>\n                    </div>\n                    <div class=\"event-organizer\">\n                        Organized by <strong>"
  ++ event.organizer
  ++ "</strong>\n                    </div>\n                    <div class=\"event-actions\">\n                        <button class=\"btn btn-primary btn-join\" data-event-id=\""
  ++ toString event.id
  ++ "\">\n                            Join Event\n                        </button>\n                        <button class=\"btn btn-secondary btn-details\" data-event-id=\""
  ++ toString event.id
  ++ "\">\n                            Learn More\n                        </button>\n                    </div>\n                </div>\n            </article>\n        "

/-- `createEventCard` (lines 397-429): the template literal as a concatenation. -/
def createEventCard (intl : DateTimeOptions → String → String) (event : Event) : String :=
  cardHead ++ (toString event.id ++ cardBody intl event)

/-- `Array.prototype.join` with the empty separator. -/
def joinEmpty : List String → String
  | [] => ""
  | s :: rest => s ++ joinEmpty rest

/-- `renderEvents` (lines 378-395). Without an `#events-grid` element it returns
at once; otherwise it assigns the container either the empty-state markup or the
joined cards. `animateEventCards` only restyles the cards just written and is
left out of the state. -/
def renderEvents (intl : DateTimeOptions → String → String) (s : EventsManager) :
    EventsManager :=
  match s.eventsGrid with
  | none => s
  | some _ =>
    if s.filteredEvents.length = 0 then
      { s with eventsGrid := some noEventsHtml }
    else
      { s with eventsGrid := some (joinEmpty (s.filteredEvents.map (createEventCard intl))) }

/-- `renderError` (lines 450-463). -/
def renderError (s : EventsManager) : EventsManager :=
  match s.eventsGrid with
  | none => s
  | some _ => { s with eventsGrid := some eventsErrorHtml }

/-- `handleFilter` (lines 358-376): record the filter, toggle the `active` class
of every filter button, recompute the filtered view and render it. -/
def handleFilter (intl : DateTimeOptions → String → String) (s : EventsManager)
    (filter : String) : EventsManager :=
  let s1 := { s with currentFilter := filter }
  let s2 := { s1 with
    filterBtns := s1.filterBtns.map
      (fun (btn : FilterBtn) => { btn with active := decide (btn.dataFilter = some filter) }) }
  let s3 :=
    if filter = "all" then
      { s2 with filteredEvents := s2.events }
    else
      { s2 with filteredEvents := s2.events.filter (fun event => event.tags.contains filter) }
  renderEvents intl s3

/-- The part of `loadEvents` (lines 302-308) that runs before the suspension:
without a container it returns, otherwise it starts `fetchEvents` and waits. -/
def loadEventsBegin (s : EventsManager) : EventsManager :=
  match s.eventsGrid with
  | none => s
  | some _ => { s with pendingLoads := s.pendingLoads + 1 }

/-- The part of `loadEvents` (lines 308-315) that runs when the awaited promise
settles: with the resolved array it overwrites both lists and renders, with a
rejection it renders the error markup. -/
def loadEventsResume (intl : DateTimeOptions → String → String) (s : EventsManager)
    (settled : Except String (List Event)) : EventsManager :=
  match settled with
  | .ok events =>
    renderEvents intl { s with events := events, filteredEvents := events }
  | .error _ => renderError s

/-- The constructor (lines 277-283) followed by `init` (lines 285-288) on a page
with the given filter buttons and container. `bindEvents` only registers
listeners. -/
def EventsManager.construct (filterBtns : List FilterBtn) (eventsGrid : Option String) :
    EventsManager :=
  loadEventsBegin
    { events := [], filteredEvents := [], currentFilter := "all", loadingMore := false,
      filterBtns := filterBtns, eventsGrid := eventsGrid, pendingLoads := 0 }

/-- What can happen to an `EventsManager` after construction: a click on a filter
button, or the settling of a pending `fetchEvents` promise. -/
inductive EventsAction where
  | filter (tag : String)
  | loadDone
deriving DecidableEq, Repr

/-- One step of the manager. A pending load settles with the array of
`fetchEvents`, which never rejects; with no load pending nothing settles. -/
def EventsManager.step (intl : DateTimeOptions → String → String) (s : EventsManager) :
    EventsAction → EventsManager
  | .filter tag => handleFilter intl s tag
  | .loadDone =>
    if s.pendingLoads = 0 then s
    else loadEventsResume intl { s with pendingLoads := s.pendingLoads - 1 } (.ok fetchEvents)

/-- Run a sequence of steps from left to right. -/
def EventsManager.run (intl : DateTimeOptions → String → String) (s : EventsManager)
    (actions : List EventsAction) : EventsManager :=
  actions.foldl (EventsManager.step intl) s

/-- The events whose tag list contains `t`, kept in their original order: the
filtered view as the specification words it. -/
def eventsWithTag : List Event → String → List Event
  | [], _ => []
  | e :: rest, t => if t ∈ e.tags then e :: eventsWithTag rest t else eventsWithTag rest t

/-- The specification invariant: the filtered view is the whole list under the
filter `all` and the events tagged with the active filter otherwise. -/
def EventsManager.viewAgrees (s : EventsManager) : Prop :=
  if s.currentFilter = "all" then s.filteredEvents = s.events
  else s.filteredEvents = eventsWithTag s.events s.currentFilter

instance (s : EventsManager) : Decidable s.viewAgrees := by
  unfold EventsManager.viewAgrees; infer_instance

/-- A formatter used to evaluate the model on concrete pages. -/
def sampleIntl (_ : DateTimeOptions) (date : String) : String := date

/-- A manager on a page with a container and three filter buttons, after its
initial load has completed. -/
def loadedManager : EventsManager :=
  EventsManager.run sampleIntl
    (EventsManager.construct
      [{ dataFilter := some "all", active := true },
       { dataFilter := some "nearby", active := false },
       { dataFilter := some "this-week", active := false }]
      (some ""))
    [.loadDone]

/-! ## Notifications: data model -/

/-- A child element of `document.body`. The field `id` stands for the identity
of the DOM node: two elements are the same node exactly when their ids agree. -/
structure Element where
  id : Nat
  className : String
  innerHTML : String
deriving DecidableEq, Repr

/-- A pending `setTimeout` whose callback is `notification.remove()` for the node
`target`; `due` is the clock value from which the browser may run it. -/
structure Timer where
  target : Nat
  delay : Nat
  due : Nat
deriving DecidableEq, Repr

/-- The part of the page that `showNotification` touches: the children of
`document.body` in document order, the pending timers, the nodes whose close
button carries a click listener, the identity of the next node that
`document.createElement` returns, and the clock in milliseconds. -/
structure Page where
  body : List Element
  timers : List Timer
  closeListeners : List Nat
  nextId : Nat
  now : Nat
deriving DecidableEq, Repr

/-! ## Notifications: operations -/

/-- The markup assigned to `notification.innerHTML` (lines 1055-1058). -/
def notificationHtml (message : String) : String :=
  "\n            <span class=\"notification-message\">"
  ++ message
  ++ "</span>\n            <button class=\"notification-close\" aria-label=\"Close notification\">\u221A\u00F3</button>\n        "

/-- `Element.remove()`: detach the node from its parent; a node that is not a
child of `document.body` is left alone. -/
def Page.remove (p : Page) (n : Nat) : Page :=
  { p with body := p.body.filter (fun e => e.id != n) }

/-- `showNotification` (lines 1051-1072). The parameter `type` is `none` when the
caller passes no second argument, which selects the default `info`. The browser
query `notification.querySelector(.notification-close)` on the parsed markup is
the parameter `hasClose`; the listener is attached only when it finds a button. -/
def showNotification (hasClose : String → Bool) (p : Page) (message : String)
    (type : Option String) : Page :=
  let type := type.getD "info"
  let notification : Element :=
    { id := p.nextId
      className := "notification notification-" ++ type
      innerHTML := notificationHtml message }
  { body := p.body ++ [notification]
    timers := p.timers ++ [{ target := notification.id, delay := 5000, due := p.now + 5000 }]
    closeListeners :=
      if hasClose notification.innerHTML then p.closeListeners ++ [notification.id]
      else p.closeListeners
    nextId := p.nextId + 1
    now := p.now }

/-- The click listener of lines 1069-1071: a click on the close button of node
`n` removes that node; a node without the listener ignores the click. -/
def Page.closeClick (p : Page) (n : Nat) : Page :=
  if n ∈ p.closeListeners then p.remove n else p

/-- Whether a timer for node `n` is still pending. -/
def Page.timerPending (p : Page) (n : Nat) : Bool :=
  p.timers.any (fun t => t.target == n)

/-- Whether a pending timer for node `n` has reached its due time. -/
def Page.timerDue (p : Page) (n : Nat) : Bool :=
  p.timers.any (fun t => t.target == n && decide (t.due ≤ p.now))

/-- The timer callback of lines 1064-1066 for node `n`: once due, the timer
leaves the queue and its callback removes the node. Before that nothing runs. -/
def Page.timerFire (p : Page) (n : Nat) : Page :=
  if p.timerDue n then
    { p.remove n with timers := p.timers.filter (fun t => t.target != n) }
  else p

/-- Whether node `n` is a child of `document.body`. -/
def Page.present (p : Page) (n : Nat) : Bool :=
  p.body.any (fun e => e.id == n)

/-- What can happen on the page as far as notifications go: a call of
`showNotification`, a click on the close button of a node, the firing of the
removal timer of a node, and the passing of time. Code that rewrites the whole
body, as `handleInitError` does, is not among the steps. -/
inductive PageAction where
  | notify (message : String) (type : Option String)
  | closeClick (n : Nat)
  | timerFire (n : Nat)
  | elapse (ms : Nat)
deriving DecidableEq, Repr

/-- One step of the page. -/
def Page.step (hasClose : String → Bool) (p : Page) : PageAction → Page
  | .notify message type => showNotification hasClose p message type
  | .closeClick n => p.closeClick n
  | .timerFire n => p.timerFire n
  | .elapse ms => { p with now := p.now + ms }

/-- Run a sequence of steps from left to right. -/
def Page.run (hasClose : String → Bool) (p : Page) (actions : List PageAction) : Page :=
  actions.foldl (Page.step hasClose) p

/-- The page after `showNotification` on `p` followed by the steps `mid`. The new
notification is the node `p.nextId`. -/
def Page.notifyThen (hasClose : String → Bool) (p : Page) (message : String)
    (type : Option String) (mid : List PageAction) : Page :=
  Page.run hasClose (showNotification hasClose p message type) mid

/-- Node identities handed out so far lie below `nextId`: every child of the body
and every timer target is an already created node. -/
def Page.WF (p : Page) : Prop :=
  (∀ e ∈ p.body, e.id < p.nextId) ∧ (∀ t ∈ p.timers, t.target < p.nextId)

/-- The life of a notification `n` created at clock `t0` on which the close
button is never clicked: its timer is due at `t0 + 5000`; while the timer is
pending the node is a child of the body; once the timer has left the queue the
node is gone and the clock has reached `t0 + 5000`. -/
def Page.Untouched (p : Page) (n t0 : Nat) : Prop :=
  n < p.nextId ∧
  (∀ t ∈ p.timers, t.target = n → t.due = t0 + 5000) ∧
  (p.timerPending n = true → p.present n = true) ∧
  (p.timerPending n = false → p.present n = false ∧ t0 + 5000 ≤ p.now)

/-- A query that finds the close button in every markup, as it does for the
messages the application passes. -/
def alwaysClose (_ : String) : Bool := true

/-- A page with one unrelated child and nothing scheduled. -/
def samplePage : Page :=
  { body := [{ id := 0, className := "hero", innerHTML := "" }]
    timers := [], closeListeners := [], nextId := 1, now := 100 }

/-! ## Weather cache: data model -/

/-- The record built by `getMockWeatherData` (lines 239-245). -/
structure WeatherData where
  temperature : Nat
  condition : String
  windSpeed : Nat
  humidity : Nat
  icon : String
deriving DecidableEq, Repr

/-- A cache value `{ data, timestamp }` (lines 213-216). -/
structure CacheEntry where
  data : WeatherData
  timestamp : Int
deriving DecidableEq, Repr

/-- A `WeatherService`: the `Map` from cache key to entry in insertion order and
the cache duration (lines 198-199). The two counters record how often
`fetchWeatherData` and `getMockWeatherData` have been invoked. -/
structure WeatherService where
  cache : List (String × CacheEntry)
  cacheDuration : Int
  fetchCalls : Nat
  mockCalls : Nat
deriving DecidableEq, Repr

/-- Where the synchronous prefix of `getCurrentWeather` ends: at the `return` of
line 207, or suspended at the `await` of line 212 with its cache key. -/
inductive Started where
  | returned (data : WeatherData)
  | awaiting (cacheKey : String)
deriving DecidableEq, Repr

/-! ## Weather cache: operations -/

/-- `Map.prototype.get`. -/
def mapGet : List (String × CacheEntry) → String → Option CacheEntry
  | [], _ => none
  | (k, v) :: rest, key => if k = key then some v else mapGet rest key

/-- `Map.prototype.set`: overwrite the value of a present key in place, append a
new key at the end. -/
def mapSet : List (String × CacheEntry) → String → CacheEntry → List (String × CacheEntry)
  | [], key, value => [(key, value)]
  | (k, v) :: rest, key, value =>
    if k = key then (k, value) :: rest else (k, v) :: mapSet rest key value

/-- The constructor (lines 197-200). -/
def WeatherService.construct : WeatherService :=
  { cache := [], cacheDuration := 10 * 60 * 1000, fetchCalls := 0, mockCalls := 0 }

/-- The cache key of line 203 for integer-valued coordinates, which JavaScript
prints as their decimal numerals. -/
def cacheKey (lat lon : Int) : String :=
  toString lat ++ "-" ++ toString lon

/-- `getCurrentWeather` up to its first suspension (lines 203-212), called when
`Date.now()` reads `now`: a fresh entry is returned, otherwise
`fetchWeatherData` is invoked and the call waits for it. -/
def getCurrentWeatherBegin (w : WeatherService) (lat lon : Int) (now : Int) :
    WeatherService × Started :=
  let key := cacheKey lat lon
  match mapGet w.cache key with
  | some cached =>
    if now - cached.timestamp < w.cacheDuration then (w, .returned cached.data)
    else ({ w with fetchCalls := w.fetchCalls + 1 }, .awaiting key)
  | none => ({ w with fetchCalls := w.fetchCalls + 1 }, .awaiting key)

/-- The timer callback inside `fetchWeatherData` (lines 228-230): it invokes
`getMockWeatherData` once, whose record is `generated`, and resolves with it. -/
def fetchWeatherDataSettle (w : WeatherService) (generated : WeatherData) :
    WeatherService × Except String WeatherData :=
  ({ w with mockCalls := w.mockCalls + 1 }, .ok generated)

/-- `getCurrentWeather` from its resumption (lines 212-222), when `Date.now()`
reads `now`: a resolved record is stored under the key and returned; a rejection
falls back to a record from `getMockWeatherData`, here `fallback`, and stores
nothing. -/
def getCurrentWeatherResume (w : WeatherService) (key : String)
    (settled : Except String WeatherData) (now : Int) (fallback : WeatherData) :
    WeatherService × WeatherData :=
  match settled with
  | .ok weatherData =>
    ({ w with cache := mapSet w.cache key { data := weatherData, timestamp := now } },
      weatherData)
  | .error _ => ({ w with mockCalls := w.mockCalls + 1 }, fallback)

/-- A whole call of `getCurrentWeather` with nothing else running in between:
`nowCall` is the clock at the cache check, `nowStore` the clock when the fetched
record is stored, `generated` the record the generator produces. -/
def getCurrentWeather (w : WeatherService) (lat lon : Int) (nowCall nowStore : Int)
    (generated : WeatherData) : WeatherService × WeatherData :=
  match getCurrentWeatherBegin w lat lon nowCall with
  | (w1, .returned data) => (w1, data)
  | (w1, .awaiting key) =>
    let settled := fetchWeatherDataSettle w1 generated
    getCurrentWeatherResume settled.1 key settled.2 nowStore generated

/-- What can happen to a `WeatherService`: a call of `getCurrentWeather` runs up
to its cache check, the timer of a pending `fetchWeatherData` produces a record,
or a suspended call resumes with the settled fetch. Calls may overlap: several
can be suspended at once, and they resume in any order. -/
inductive WeatherAction where
  | call (lat lon : Int) (now : Int)
  | settle (generated : WeatherData)
  | resume (key : String) (settled : Except String WeatherData) (now : Int)
      (fallback : WeatherData)

/-- Whether the action is a resumption that stores a record under `key`. -/
def WeatherAction.storesUnder (key : String) : WeatherAction → Bool
  | .resume k (.ok _) _ _ => k == key
  | _ => false

/-- One step of the service. -/
def WeatherService.step (w : WeatherService) : WeatherAction → WeatherService
  | .call lat lon now => (getCurrentWeatherBegin w lat lon now).1
  | .settle generated => (fetchWeatherDataSettle w generated).1
  | .resume key settled now fallback => (getCurrentWeatherResume w key settled now fallback).1

/-- Run a sequence of steps from left to right. -/
def WeatherService.run (w : WeatherService) (actions : List WeatherAction) : WeatherService :=
  actions.foldl WeatherService.step w

/-- A record as `getMockWeatherData` can produce it. -/
def sampleWeather : WeatherData :=
  { temperature := 72, condition := "Cloudy", windSpeed := 12, humidity := 55,
    icon := "\u201A\u00F2\u00C4\u00D4\u220F\u00E8" }

/-- Another such record. -/
def otherWeather : WeatherData :=
  { temperature := 65, condition := "Clear", windSpeed := 5, humidity := 40,
    icon := "\u201A\u00F2\u00C4\u00D4\u220F\u00E8" }

/-- A service whose cache holds one entry, stored at clock 1000 by a first call
for the coordinates (1, 103) made at clock 0. -/
def sampleService : WeatherService :=
  (getCurrentWeather WeatherService.construct 1 103 0 1000 sampleWeather).1

/-! ## Weather mock generator -/

/-- The index `Math.floor(Math.random() * n)` for a draw `r` of `Math.random`,
whose contract is `0 <= r < 1`. Draws are rationals and the product is exact. -/
def randomIndex (r : ℚ) (n : Nat) : Nat :=
  (⌊r * (n : ℚ)⌋).toNat

/-- The array `conditions` of `getMockWeatherData` (line 235). -/
def mockConditions : List String :=
  ["Sunny", "Partly Cloudy", "Cloudy", "Light Rain", "Clear"]

/-- The array `temps` (line 236). -/
def mockTemps : List Nat := [65, 68, 72, 75, 78, 82]

/-- The array `winds` (line 237). -/
def mockWinds : List Nat := [5, 8, 12, 15, 18]

/-- The object `icons` of `getWeatherIcon` (lines 249-255), in source order. -/
def weatherIcons : List (String × String) :=
  [("Sunny", "\u201A\u00F2\u00C4\u00D4\u220F\u00E8"),
    ("Partly Cloudy", "\u201A\u00F5\u00D6"),
    ("Cloudy", "\u201A\u00F2\u00C5\u00D4\u220F\u00E8"),
    ("Light Rain", "\uF8FF\u00FC\u00E5\u00B6\u00D4\u220F\u00E8"),
    ("Clear", "\uF8FF\u00FC\u00E5\u00A7\u00D4\u220F\u00E8")]

/-- The fallback icon of line 256. -/
def defaultWeatherIcon : String := "\uF8FF\u00FC\u00E5\u00A7\u00D4\u220F\u00E8"

/-- `getWeatherIcon` (lines 248-257): the icon listed for the condition, or the
fallback when none is listed. -/
def getWeatherIcon (condition : String) : String :=
  match weatherIcons.lookup condition with
  | some icon => icon
  | none => defaultWeatherIcon

/-- `getMockWeatherData` (lines 234-246) for the four draws of `Math.random` in
the order the object literal evaluates them: temperature, condition, wind speed,
humidity. An index past an array, which no draw below 1 produces, reads as 0 or
the empty string. The icon is computed from `conditions[0]`, as in line 244. -/
def getMockWeatherData (rTemp rCond rWind rHum : ℚ) : WeatherData :=
  { temperature := mockTemps.getD (randomIndex rTemp mockTemps.length) 0
    condition := mockConditions.getD (randomIndex rCond mockConditions.length) ""
    windSpeed := mockWinds.getD (randomIndex rWind mockWinds.length) 0
    humidity := (⌊rHum * 40⌋ + 40).toNat
    icon := getWeatherIcon (mockConditions.getD 0 "") }

/-! ## Impact tracker -/

/-- The object `impactData` with its seven counters (lines 663-671). -/
structure ImpactData where
  beachesCleaned : Int
  plasticRemoved : Int
  volunteers : Int
  eventsCompleted : Int
  cleanupCount : Int
  memberCount : Int
  trashCollected : Int
deriving DecidableEq, Repr

/-- The value the constructor assigns (lines 663-671): every counter is zero. -/
def ImpactData.initial : ImpactData :=
  { beachesCleaned := 0, plasticRemoved := 0, volunteers := 0, eventsCompleted := 0,
    cleanupCount := 0, memberCount := 0, trashCollected := 0 }

/-- The fallback assigned in the `catch` of `loadImpactData` (lines 689-697). -/
def ImpactData.fallback : ImpactData :=
  { beachesCleaned := 127, plasticRemoved := 15420, volunteers := 892, eventsCompleted := 234,
    cleanupCount := 156, memberCount := 2340, trashCollected := 8765 }

/-- The object resolved by `fetchImpactData` (lines 704-712) for the seven draws
of `Math.random`, in source order. -/
def fetchImpactData (r1 r2 r3 r4 r5 r6 r7 : ℚ) : ImpactData :=
  { beachesCleaned := ⌊r1 * 200⌋ + 100
    plasticRemoved := ⌊r2 * 20000⌋ + 10000
    volunteers := ⌊r3 * 1000⌋ + 500
    eventsCompleted := ⌊r4 * 300⌋ + 200
    cleanupCount := ⌊r5 * 200⌋ + 100
    memberCount := ⌊r6 * 3000⌋ + 2000
    trashCollected := ⌊r7 * 10000⌋ + 5000 }

/-- The continuation of `loadImpactData` (lines 684-698). The fetched object
carries all seven keys, so the spread of line 685 replaces every counter; a
rejection assigns the fallback. -/
def loadImpactDataResume (_ : ImpactData) (settled : Except String ImpactData) : ImpactData :=
  match settled with
  | .ok data => data
  | .error _ => ImpactData.fallback

/-- The result of `Object.keys(this.impactData)` (line 732): the keys in
insertion order. -/
def impactKeys : List String :=
  ["beachesCleaned", "plasticRemoved", "volunteers", "eventsCompleted", "cleanupCount",
   "memberCount", "trashCollected"]

/-- The property read `this.impactData[key]`: `none` stands for `undefined`. -/
def ImpactData.get (d : ImpactData) (key : String) : Option Int :=
  if key = "beachesCleaned" then some d.beachesCleaned
  else if key = "plasticRemoved" then some d.plasticRemoved
  else if key = "volunteers" then some d.volunteers
  else if key = "eventsCompleted" then some d.eventsCompleted
  else if key = "cleanupCount" then some d.cleanupCount
  else if key = "memberCount" then some d.memberCount
  else if key = "trashCollected" then some d.trashCollected
  else none

/-- The replacement `key.replace(/([A-Z])/g, -$1)` of line 733: a hyphen goes in
front of every capital letter A to Z. -/
def hyphenateCapitals (s : String) : String :=
  String.mk (s.data.flatMap (fun c => if c.isUpper then ['-', c] else [c]))

/-- The element id that `animateCounters` looks up for a key (line 733). -/
def counterId (key : String) : String :=
  String.mk ((hyphenateCapitals key).data.map Char.toLower)

/-- The replacement `element.id.replace(-, empty)` of line 722: with a string
pattern only the first hyphen is removed. -/
def removeFirstHyphen (s : String) : String :=
  String.mk (s.data.erase '-')

/-- The key the intersection callback computes from an element id (line 722). -/
def counterKey (elementId : String) : String :=
  removeFirstHyphen elementId

/-- The target the callback passes to `animateNumber` (line 723):
`this.impactData[key] || 0`, where both `undefined` and 0 give 0. -/
def counterTarget (d : ImpactData) (elementId : String) : Int :=
  match d.get (counterKey elementId) with
  | some value => if value = 0 then 0 else value
  | none => 0

/-- A JavaScript division whose result is a finite number: `none` stands for
the `NaN` or infinity that a zero divisor yields. -/
def jsDiv (a b : ℚ) : Option ℚ :=
  if b = 0 then none else some (a / b)

/-- One entry of the array `data` of `drawChart`. -/
structure ChartItem where
  label : String
  value : ℚ
deriving DecidableEq, Repr

/-- The array `data` of `drawChart` (lines 752-757). -/
def chartData (d : ImpactData) : List ChartItem :=
  [ { label := "Events", value := d.eventsCompleted },
    { label := "Volunteers", value := d.volunteers },
    { label := "Beaches", value := d.beachesCleaned },
    { label := "Items Removed", value := (d.plasticRemoved : ℚ) / 100 } ]

/-- The value `Math.max(...data.map(d => d.value))` of line 759. The array has
four entries, so the empty case is never taken. -/
def chartMaxValue (d : ImpactData) : ℚ :=
  match (chartData d).map (fun item => item.value) with
  | [] => 0
  | v :: rest => rest.foldl max v

/-- The bar heights `(item.value / maxValue) * barMaxHeight` of line 765, one per
entry, for a canvas of the given height. -/
def chartBarHeights (d : ImpactData) (height : ℚ) : List (Option ℚ) :=
  (chartData d).map (fun item => (jsDiv item.value (chartMaxValue d)).map (· * (height - 60)))

/-- What `init` (lines 675-679) draws: `loadImpactData` only starts its fetch,
so `setupChart` runs `drawChart` on the constructor value; without a canvas
nothing is drawn. The argument is the canvas height when the page has
`#impact-chart`. -/
def ImpactTracker.initChart (canvasHeight : Option ℚ) : Option (List (Option ℚ)) :=
  canvasHeight.map (chartBarHeights ImpactData.initial)

/-! ## Navigation menu -/

/-- The `.nav-toggle` element as far as the controller touches it: its
`aria-expanded` and `aria-label` attributes, `none` when unset. -/
structure NavToggle where
  ariaExpanded : Option String
  ariaLabel : Option String
deriving DecidableEq, Repr

/-- The `.nav-menu` element: whether its class list holds `active` and whether
it has a `.nav-link` descendant. -/
structure NavMenu where
  active : Bool
  hasLink : Bool
deriving DecidableEq, Repr

/-- A `NavigationController` with the two elements its methods query, each
`none` when the page has no such element, and whether `openMenu` has moved the
focus to the first link. -/
structure NavigationController where
  isMenuOpen : Bool
  navToggle : Option NavToggle
  navMenu : Option NavMenu
  firstLinkFocused : Bool
deriving DecidableEq, Repr

/-- `openMenu` (lines 164-175). -/
def openMenu (s : NavigationController) : NavigationController :=
  { isMenuOpen := true
    navMenu := s.navMenu.map (fun m => { m with active := true })
    navToggle := s.navToggle.map (fun t => { t with ariaExpanded := some "true" })
    firstLinkFocused :=
      match s.navMenu with
      | some m => m.hasLink || s.firstLinkFocused
      | none => s.firstLinkFocused }

/-- `closeMenu` (lines 177-184). -/
def closeMenu (s : NavigationController) : NavigationController :=
  { s with
    isMenuOpen := false
    navMenu := s.navMenu.map (fun m => { m with active := false })
    navToggle := s.navToggle.map (fun t => { t with ariaExpanded := some "false" }) }

/-- `toggleMenu` (lines 160-162). -/
def toggleMenu (s : NavigationController) : NavigationController :=
  if s.isMenuOpen then closeMenu s else openMenu s

/-- `setupAccessibility` (lines 186-192). -/
def setupAccessibility (s : NavigationController) : NavigationController :=
  { s with
    navToggle := s.navToggle.map (fun _ =>
      { ariaExpanded := some "false", ariaLabel := some "Toggle navigation menu" }) }

/-- The constructor (lines 121-124) with `init` (lines 126-129) on a page with
the given elements as its markup delivers them. `bindEvents` only registers
listeners. -/
def NavigationController.construct (navToggle : Option NavToggle) (navMenu : Option NavMenu) :
    NavigationController :=
  setupAccessibility
    { isMenuOpen := false, navToggle := navToggle, navMenu := navMenu,
      firstLinkFocused := false }

/-- The three methods that change the menu. The listeners of `bindEvents` call
`toggleMenu` and `closeMenu`. -/
inductive NavAction where
  | toggleMenu
  | openMenu
  | closeMenu
deriving DecidableEq, Repr

/-- One method call. -/
def NavigationController.step (s : NavigationController) : NavAction → NavigationController
  | .toggleMenu => toggleMenu s
  | .openMenu => openMenu s
  | .closeMenu => closeMenu s

/-- Run a sequence of method calls from left to right. -/
def NavigationController.run (s : NavigationController) (actions : List NavAction) :
    NavigationController :=
  actions.foldl NavigationController.step s

/-- The ARIA state tracks the menu state: both elements are present, the toggle
has `aria-expanded` equal to `true` exactly when `isMenuOpen` holds, and the
menu has class `active` exactly when `isMenuOpen` holds. -/
def NavigationController.ariaTracks (s : NavigationController) : Prop :=
  ∃ t m, s.navToggle = some t ∧ s.navMenu = some m ∧
    (t.ariaExpanded = some "true" ↔ s.isMenuOpen = true) ∧
    (m.active = true ↔ s.isMenuOpen = true)

/-! ## Map: cleanup markers -/

/-- A cleanup marker: the fields of its location (lines 552-569) and whether the
Leaflet layer is on the map. In Leaflet `addTo` on a layer that is on the map and
`removeLayer` on one that is not change nothing. -/
structure Marker where
  coords : ℚ × ℚ
  title : String
  description : String
  type : String
  onMap : Bool
deriving DecidableEq, Repr

/-- A `MapController` whose `initializeMap` has succeeded, so that `this.map` is
set: the array `this.markers`, and the `#cleanup-spots` button, `none` when the
page has none and otherwise whether its class list holds `active`. -/
structure MapController where
  markers : List Marker
  cleanupBtn : Option Bool
deriving DecidableEq, Repr

/-- The array `locations` of `addCleanupLocations` (lines 551-570), each entry
already added to the map as line 575 does. -/
def cleanupLocations : List Marker :=
  [ { coords := (40.7589, -73.9851), title := "Central Park Cleanup",
      description := "Weekly community cleanup event", type := "regular", onMap := true },
    { coords := (40.6892, -74.0445), title := "Statue of Liberty Beach",
      description := "Monthly beach restoration", type := "beach", onMap := true },
    { coords := (40.7505, -73.9934), title := "Times Square Area",
      description := "Urban cleanup initiative", type := "urban", onMap := true } ]

/-- `addCleanupLocations` (lines 550-586): every location becomes a marker on the
map and is pushed onto `this.markers`. -/
def addCleanupLocations (s : MapController) : MapController :=
  { s with markers := s.markers ++ cleanupLocations }

/-- The state after the constructor (lines 468-473) and a successful
`initializeMap` (lines 482-507) on a page whose `#cleanup-spots` button is as
given. No line of either touches the button. -/
def initializeMap (cleanupBtn : Option Bool) : MapController :=
  addCleanupLocations { markers := [], cleanupBtn := cleanupBtn }

/-- `toggleCleanupSpots` (lines 627-642): without the button it returns; with an
active button it removes every marker from the map and clears the class; with an
inactive button it adds every marker to the map and sets the class. -/
def toggleCleanupSpots (s : MapController) : MapController :=
  match s.cleanupBtn with
  | none => s
  | some isActive =>
    if isActive then
      { markers := s.markers.map (fun marker => { marker with onMap := false })
        cleanupBtn := some false }
    else
      { markers := s.markers.map (fun marker => { marker with onMap := true })
        cleanupBtn := some true }

/-- The state after `n` calls of `toggleCleanupSpots`. -/
def MapController.toggles (s : MapController) (n : Nat) : MapController :=
  Nat.iterate toggleCleanupSpots n s

/-- All markers are on the map. -/
def MapController.shown (s : MapController) : Bool :=
  s.markers.all (fun marker => marker.onMap)

/-- No marker is on the map. -/
def MapController.hidden (s : MapController) : Bool :=
  s.markers.all (fun marker => !marker.onMap)

/-! ## Number animation -/

/-- The closure state of one `Utils.animateNumber` call (lines 44-58): the
target, the increment, the running value `current`, the number last written to
the element (`none` while its original text stands; the locale formatting of
`toLocaleString` is left out) and whether the interval timer is still set. -/
structure Animation where
  target : Int
  increment : ℚ
  current : ℚ
  written : Option Int
  timerActive : Bool
deriving DecidableEq, Repr

/-- `animateNumber` up to the `setInterval` call (lines 44-49). The argument
`parsed` is the result of `parseInt(element.textContent)`, `none` for `NaN`, so
that `parsed || 0` is 0 for both `NaN` and 0; `duration` is `none` when the
caller omits it, which selects 1000. Numbers are exact rationals, where the
source computes in doubles: the two agree as long as every value involved is
exactly representable, and a zero duration, for which the source divides by
zero, is outside the model. -/
def animateNumber (parsed : Option Int) (target : Int) (duration : Option ℚ) : Animation :=
  let start : Int :=
    match parsed with
    | some v => if v = 0 then 0 else v
    | none => 0
  { target := target
    increment := ((target - start : Int) : ℚ) / (duration.getD 1000 / 16)
    current := start
    written := none
    timerActive := true }

/-- One firing of the interval callback (lines 49-57). A cleared timer does not
fire. The sum `current + increment` is exact; the source accumulates doubles, so
for an increment that is not exactly representable its running value can fall
short of the exact sum and reach the target one tick later. -/
def Animation.tick (a : Animation) : Animation :=
  if a.timerActive then
    if (a.target : ℚ) ≤ a.current + a.increment then
      { a with current := a.current + a.increment, written := some a.target,
               timerActive := false }
    else
      { a with current := a.current + a.increment,
               written := some ⌊a.current + a.increment⌋ }
  else a

/-- The state after `n` interval periods of 16 ms. -/
def Animation.ticks (a : Animation) (n : Nat) : Animation :=
  Nat.iterate Animation.tick n a

/-! ## Cache keys -/

/-- The template literal of line 203 for any rendering `print` of a number as a
string. -/
def coordKey {α : Type} (print : α → String) (lat lon : α) : String :=
  print lat ++ "-" ++ print lon

/-- The shape of the string JavaScript prints for a finite number, as far as the
hyphen is concerned: the string is not empty, it does not end in `e`, and a
hyphen that is not its first character follows an `e` (the sign of an exponent,
as in `1e-7`). -/
def NumeralShape (s : List Char) : Prop :=
  s ≠ [] ∧ (∀ p, s ≠ p ++ ['e']) ∧
  (∀ p q, s = p ++ '-' :: q → p = [] ∨ ∃ r, p = r ++ ['e'])

/-- The value of a character as a decimal digit. -/
def digitValue (c : Char) : Nat := c.toNat - 48

/-- The number a list of decimal digits denotes, most significant digit first,
continuing from `acc`. -/
def digitsValue (acc : Nat) (ds : List Char) : Nat :=
  ds.foldl (fun a c => a * 10 + digitValue c) acc

/-! ## Events: theorems -/

theorem eventsWithTag_eq_filter (events : List Event) (t : String) :
    eventsWithTag events t = events.filter (fun event => event.tags.contains t) := by
  induction events with
  | nil => rfl
  | cons e rest ih =>
    by_cases h : t ∈ e.tags
    · simp [eventsWithTag, List.filter, h, ih]
    · simp [eventsWithTag, List.filter, h, ih]

theorem renderEvents_fields (intl : DateTimeOptions → String → String) (s : EventsManager) :
    (renderEvents intl s).events = s.events ∧
    (renderEvents intl s).filteredEvents = s.filteredEvents ∧
    (renderEvents intl s).currentFilter = s.currentFilter ∧
    (renderEvents intl s).filterBtns = s.filterBtns ∧
    (renderEvents intl s).pendingLoads = s.pendingLoads ∧
    (renderEvents intl s).loadingMore = s.loadingMore := by
  unfold renderEvents
  cases s.eventsGrid with
  | none => simp
  | some g => by_cases h : s.filteredEvents.length = 0 <;> simp [h]

theorem renderEvents_eq (intl : DateTimeOptions → String → String) (s : EventsManager) :
    renderEvents intl s =
      { s with eventsGrid := s.eventsGrid.map (fun _ =>
          if s.filteredEvents.length = 0 then noEventsHtml
          else joinEmpty (s.filteredEvents.map (createEventCard intl))) } := by
  unfold renderEvents
  cases hg : s.eventsGrid with
  | none =>
    cases s
    simp_all
  | some g =>
    by_cases hl : s.filteredEvents.length = 0
    · simp only [hl, if_true, Option.map_some']
    · simp only [hl, if_false, Option.map_some']

theorem handleFilter_fields (intl : DateTimeOptions → String → String) (s : EventsManager)
    (t : String) :
    (handleFilter intl s t).events = s.events ∧
    (handleFilter intl s t).currentFilter = t ∧
    (handleFilter intl s t).filteredEvents =
      (if t = "all" then s.events else s.events.filter (fun event => event.tags.contains t)) ∧
    (handleFilter intl s t).filterBtns =
      s.filterBtns.map
        (fun (btn : FilterBtn) => { btn with active := decide (btn.dataFilter = some t) }) ∧
    (handleFilter intl s t).pendingLoads = s.pendingLoads ∧
    (handleFilter intl s t).loadingMore = s.loadingMore := by
  unfold handleFilter
  by_cases h : t = "all"
  · simp only [h, if_true, renderEvents_fields]
    simp
  · simp only [h, if_false, renderEvents_fields]
    simp

theorem handleFilter_grid (intl : DateTimeOptions → String → String) (s : EventsManager)
    (t : String) :
    (handleFilter intl s t).eventsGrid =
      s.eventsGrid.map (fun _ =>
        if (handleFilter intl s t).filteredEvents.length = 0 then noEventsHtml
        else joinEmpty ((handleFilter intl s t).filteredEvents.map (createEventCard intl))) := by
  have hf := (handleFilter_fields intl s t).2.2.1
  rw [hf]
  unfold handleFilter
  rw [renderEvents_eq]
  by_cases h : t = "all"
  · simp only [h, if_true]
  · simp only [h, if_false]

theorem eventsWithTag_sublist (events : List Event) (t : String) :
    (eventsWithTag events t).Sublist events := by
  rw [eventsWithTag_eq_filter]
  exact List.filter_sublist _

theorem mem_eventsWithTag (events : List Event) (t : String) (e : Event) :
    e ∈ eventsWithTag events t ↔ e ∈ events ∧ t ∈ e.tags := by
  rw [eventsWithTag_eq_filter]
  simp [List.mem_filter]

theorem joinEmpty_cards_ne_noEvents (intl : DateTimeOptions → String → String) (e : Event)
    (rest : List Event) :
    joinEmpty ((e :: rest).map (createEventCard intl)) ≠ noEventsHtml := by
  intro h
  have hd := congrArg String.data h
  simp only [List.map, joinEmpty, createEventCard, String.data_append, List.append_assoc] at hd
  have ht := congrArg (List.take 14) hd
  rw [List.take_append_of_le_length (by decide)] at ht
  revert ht
  decide

/-- C1: for every event list and every filter tag other than the sentinel, the
filtered view after `handleFilter` is exactly the events whose tag list contains
the tag, in their original relative order: nothing added, dropped or reordered. -/
theorem handleFilter_tag_exact (intl : DateTimeOptions → String → String) (s : EventsManager)
    (t : String) (ht : t ≠ "all") :
    (handleFilter intl s t).filteredEvents = eventsWithTag s.events t ∧
    (handleFilter intl s t).filteredEvents.Sublist s.events ∧
    (∀ e, e ∈ (handleFilter intl s t).filteredEvents ↔ e ∈ s.events ∧ t ∈ e.tags) := by
  have hf := (handleFilter_fields intl s t).2.2.1
  rw [if_neg ht, ← eventsWithTag_eq_filter] at hf
  rw [hf]
  exact ⟨rfl, eventsWithTag_sublist _ _, mem_eventsWithTag _ _⟩

/-- C1, the scenario of the specification: on the three mock events the tag
`this-week` selects the first and the third, in that order. -/
theorem handleFilter_tag_exact_witness :
    "this-week" ≠ "all" ∧
    loadedManager.events = [mockEvent1, mockEvent2, mockEvent3] ∧
    (handleFilter sampleIntl loadedManager "this-week").filteredEvents =
      [mockEvent1, mockEvent3] := by
  refine ⟨by decide, by decide, ?_⟩
  rw [(handleFilter_tag_exact sampleIntl loadedManager "this-week" (by decide)).1]
  decide

/-- C2: whatever the state and so whatever the previous filter, `handleFilter`
with the sentinel `all` makes the filtered view the full event list, same
elements in the same order, and leaves that list as it was. -/
theorem handleFilter_all_full (intl : DateTimeOptions → String → String) (s : EventsManager) :
    (handleFilter intl s "all").filteredEvents = s.events ∧
    (handleFilter intl s "all").events = s.events := by
  have h := handleFilter_fields intl s "all"
  exact ⟨by simpa using h.2.2.1, h.1⟩

/-- C3, evaluated at the failing interleaving: a filter click that precedes the
completion of the initial load leaves the manager with the active filter
`nearby` while the filtered view is the whole list of three events, of which
only the first carries that tag, so the view does not agree with the filter. -/
theorem viewAgrees_lost_when_load_completes_after_filter
    (intl : DateTimeOptions → String → String) (filterBtns : List FilterBtn) (grid : String) :
    (EventsManager.run intl (EventsManager.construct filterBtns (some grid))
        [.filter "nearby", .loadDone]).currentFilter = "nearby" ∧
    (EventsManager.run intl (EventsManager.construct filterBtns (some grid))
        [.filter "nearby", .loadDone]).filteredEvents = [mockEvent1, mockEvent2, mockEvent3] ∧
    eventsWithTag (EventsManager.run intl (EventsManager.construct filterBtns (some grid))
        [.filter "nearby", .loadDone]).events "nearby" = [mockEvent1] ∧
    ¬ (EventsManager.run intl (EventsManager.construct filterBtns (some grid))
        [.filter "nearby", .loadDone]).viewAgrees := by
  have hc : (EventsManager.run intl (EventsManager.construct filterBtns (some grid))
        [.filter "nearby", .loadDone]).currentFilter = "nearby" := by
    simp [EventsManager.run, EventsManager.step, EventsManager.construct, loadEventsBegin,
      loadEventsResume, renderEvents_fields, handleFilter_fields]
  have hf : (EventsManager.run intl (EventsManager.construct filterBtns (some grid))
        [.filter "nearby", .loadDone]).filteredEvents = [mockEvent1, mockEvent2, mockEvent3] := by
    simp [EventsManager.run, EventsManager.step, EventsManager.construct, loadEventsBegin,
      loadEventsResume, renderEvents_fields, handleFilter_fields, fetchEvents]
  have he : (EventsManager.run intl (EventsManager.construct filterBtns (some grid))
        [.filter "nearby", .loadDone]).events = [mockEvent1, mockEvent2, mockEvent3] := by
    simp [EventsManager.run, EventsManager.step, EventsManager.construct, loadEventsBegin,
      loadEventsResume, renderEvents_fields, handleFilter_fields, fetchEvents]
  have hw : eventsWithTag [mockEvent1, mockEvent2, mockEvent3] "nearby" = [mockEvent1] := by
    decide
  refine ⟨hc, hf, by rw [he]; exact hw, ?_⟩
  unfold EventsManager.viewAgrees
  rw [hc, hf, he, hw]
  decide

/-- C4: `handleFilter` is idempotent on the whole state, so in particular on the
event list, the filtered view and the active filter, and it never changes the
full event list. -/
theorem handleFilter_idempotent (intl : DateTimeOptions → String → String) (s : EventsManager)
    (t : String) :
    handleFilter intl (handleFilter intl s t) t = handleFilter intl s t ∧
    (handleFilter intl (handleFilter intl s t) t).events = (handleFilter intl s t).events ∧
    (handleFilter intl (handleFilter intl s t) t).filteredEvents =
      (handleFilter intl s t).filteredEvents ∧
    (handleFilter intl (handleFilter intl s t) t).currentFilter =
      (handleFilter intl s t).currentFilter ∧
    (handleFilter intl s t).events = s.events := by
  have key : handleFilter intl (handleFilter intl s t) t = handleFilter intl s t := by
    unfold handleFilter
    simp only [renderEvents_eq]
    by_cases h : t = "all"
    · simp only [h, if_true]
      cases s.eventsGrid <;> simp [Function.comp_def]
    · simp only [h, if_false]
      cases s.eventsGrid <;> simp [Function.comp_def]
  refine ⟨key, ?_, ?_, ?_, (handleFilter_fields intl s t).1⟩ <;> rw [key]

/-- C5, as stated, fails on a page without an `#events-grid` element: the
filtered view of an unrecognised tag is empty, yet `renderEvents` returns at its
guard and no placeholder is written, so an empty view and the placeholder do
not coincide in every state. -/
theorem renderEvents_placeholder_counterexample :
    ¬ ∀ (s : EventsManager) (t : String),
        ((handleFilter sampleIntl s t).filteredEvents = [] ↔
          (handleFilter sampleIntl s t).eventsGrid = some noEventsHtml) := by
  intro h
  have h1 := (h (EventsManager.construct [] none) "surfing").1 (by decide)
  revert h1
  decide

/-- C5, amended: `handleFilter` is a total function of the state and the tag; a
tag other than `all` that no event carries yields an empty filtered view; and on
a page that has the `#events-grid` container the container holds the
`No events found` placeholder exactly when the filtered view is empty, and
otherwise the concatenation of one card per filtered event in order. -/
theorem handleFilter_renders_view (intl : DateTimeOptions → String → String)
    (s : EventsManager) (t : String) (g : String) (hg : s.eventsGrid = some g) :
    ((t ≠ "all" ∧ ∀ e ∈ s.events, t ∉ e.tags) → (handleFilter intl s t).filteredEvents = []) ∧
    ((handleFilter intl s t).eventsGrid = some noEventsHtml ↔
      (handleFilter intl s t).filteredEvents = []) ∧
    ((handleFilter intl s t).filteredEvents ≠ [] →
      (handleFilter intl s t).eventsGrid =
        some (joinEmpty ((handleFilter intl s t).filteredEvents.map (createEventCard intl)))) := by
  have hgrid := handleFilter_grid intl s t
  rw [hg, Option.map_some'] at hgrid
  refine ⟨?_, ?_, ?_⟩
  · rintro ⟨ht, hno⟩
    have hf := (handleFilter_fields intl s t).2.2.1
    rw [if_neg ht] at hf
    rw [hf, List.filter_eq_nil_iff]
    intro e he
    simpa using hno e he
  · cases hfe : (handleFilter intl s t).filteredEvents with
    | nil =>
      rw [hfe] at hgrid
      simp [hgrid]
    | cons e rest =>
      rw [hfe] at hgrid
      rw [hgrid]
      simp only [List.length_cons, Nat.add_one_ne_zero, if_false, Option.some.injEq,
        reduceCtorEq, iff_false]
      exact joinEmpty_cards_ne_noEvents intl e rest
  · intro hne
    rw [hgrid, if_neg]
    intro hl
    exact hne (List.length_eq_zero.mp hl)

/-- C5, amended, on the loaded sample page: the unknown tag `surfing` empties
the view and the container shows the placeholder. -/
theorem handleFilter_renders_view_witness :
    loadedManager.eventsGrid.isSome = true ∧
    (handleFilter sampleIntl loadedManager "surfing").filteredEvents = [] ∧
    (handleFilter sampleIntl loadedManager "surfing").eventsGrid = some noEventsHtml := by
  have hg : loadedManager.eventsGrid =
      some (joinEmpty (fetchEvents.map (createEventCard sampleIntl))) := by
    simp [loadedManager, EventsManager.run, EventsManager.step, EventsManager.construct,
      loadEventsBegin, loadEventsResume, renderEvents_eq, fetchEvents]
  have h := handleFilter_renders_view sampleIntl loadedManager "surfing" _ hg
  have hempty := h.1 ⟨by decide, by decide⟩
  exact ⟨by rw [hg]; rfl, hempty, h.2.1.mpr hempty⟩

/-! ## Notifications: theorems -/

theorem present_iff (p : Page) (n : Nat) :
    p.present n = true ↔ ∃ e ∈ p.body, e.id = n := by
  simp [Page.present]

theorem present_false_iff (p : Page) (n : Nat) :
    p.present n = false ↔ ∀ e ∈ p.body, e.id ≠ n := by
  simp [Page.present]

theorem timerPending_iff (p : Page) (n : Nat) :
    p.timerPending n = true ↔ ∃ t ∈ p.timers, t.target = n := by
  simp [Page.timerPending]

theorem timerPending_false_iff (p : Page) (n : Nat) :
    p.timerPending n = false ↔ ∀ t ∈ p.timers, t.target ≠ n := by
  simp [Page.timerPending]

theorem timerDue_iff (p : Page) (n : Nat) :
    p.timerDue n = true ↔ ∃ t ∈ p.timers, t.target = n ∧ t.due ≤ p.now := by
  simp [Page.timerDue]

theorem remove_present_self (p : Page) (n : Nat) : (p.remove n).present n = false := by
  rw [present_false_iff]
  intro e he
  simp [Page.remove, List.mem_filter] at he
  exact he.2

theorem remove_present_other (p : Page) (n m : Nat) (h : m ≠ n) :
    (p.remove n).present m = p.present m := by
  rw [Bool.eq_iff_iff, present_iff, present_iff]
  constructor
  · rintro ⟨e, he, rfl⟩
    simp [Page.remove, List.mem_filter] at he
    exact ⟨e, he.1, rfl⟩
  · rintro ⟨e, he, rfl⟩
    refine ⟨e, ?_, rfl⟩
    simp [Page.remove, List.mem_filter]
    exact ⟨he, h⟩

theorem remove_body_of_absent (p : Page) (n : Nat) (h : p.present n = false) :
    (p.remove n).body = p.body := by
  rw [present_false_iff] at h
  simp only [Page.remove]
  rw [List.filter_eq_self]
  intro e he
  simpa using h e he

theorem closeClick_body_of_absent (p : Page) (n : Nat) (h : p.present n = false) :
    (p.closeClick n).body = p.body := by
  unfold Page.closeClick
  split
  · exact remove_body_of_absent p n h
  · rfl

theorem timerFire_body_of_absent (p : Page) (n : Nat) (h : p.present n = false) :
    (p.timerFire n).body = p.body := by
  unfold Page.timerFire
  split
  · exact remove_body_of_absent p n h
  · rfl

theorem step_nextId_le (hasClose : String → Bool) (p : Page) (a : PageAction) :
    p.nextId ≤ (Page.step hasClose p a).nextId := by
  cases a with
  | notify message type => simp [Page.step, showNotification]
  | closeClick n =>
    simp only [Page.step, Page.closeClick]
    split <;> simp [Page.remove]
  | timerFire n =>
    simp only [Page.step, Page.timerFire]
    split <;> simp [Page.remove]
  | elapse ms => simp [Page.step]

theorem step_closeListeners (hasClose : String → Bool) (p : Page) (a : PageAction) (n : Nat)
    (h : n ∈ p.closeListeners) : n ∈ (Page.step hasClose p a).closeListeners := by
  cases a with
  | notify message type =>
    simp only [Page.step, showNotification]
    split
    · exact List.mem_append_left _ h
    · exact h
  | closeClick m =>
    simp only [Page.step, Page.closeClick]
    split <;> simpa [Page.remove] using h
  | timerFire m =>
    simp only [Page.step, Page.timerFire]
    split <;> simpa [Page.remove] using h
  | elapse ms => simpa [Page.step] using h

theorem run_nextId_closeListeners (hasClose : String → Bool) (actions : List PageAction)
    (p : Page) (n : Nat) (hn : n < p.nextId) (hl : n ∈ p.closeListeners) :
    n < (Page.run hasClose p actions).nextId ∧
    n ∈ (Page.run hasClose p actions).closeListeners := by
  induction actions generalizing p with
  | nil => exact ⟨hn, hl⟩
  | cons a rest ih =>
    simp only [Page.run, List.foldl_cons]
    exact ih (Page.step hasClose p a)
      (Nat.lt_of_lt_of_le hn (step_nextId_le hasClose p a))
      (step_closeListeners hasClose p a n hl)

theorem step_absent (hasClose : String → Bool) (p : Page) (a : PageAction) (n : Nat)
    (hn : n < p.nextId) (h : p.present n = false) :
    (Page.step hasClose p a).present n = false := by
  cases a with
  | notify message type =>
    rw [present_false_iff] at h ⊢
    intro e he
    simp only [Page.step, showNotification, List.mem_append, List.mem_singleton] at he
    rcases he with he | rfl
    · exact h e he
    · exact Nat.ne_of_gt hn
  | closeClick m =>
    show (p.closeClick m).present n = false
    have hb : (p.closeClick m).body.Sublist p.body := by
      unfold Page.closeClick
      split
      · exact List.filter_sublist _
      · exact List.Sublist.refl _
    rw [present_false_iff] at h ⊢
    exact fun e he => h e (hb.subset he)
  | timerFire m =>
    show (p.timerFire m).present n = false
    have hb : (p.timerFire m).body.Sublist p.body := by
      unfold Page.timerFire
      split
      · exact List.filter_sublist _
      · exact List.Sublist.refl _
    rw [present_false_iff] at h ⊢
    exact fun e he => h e (hb.subset he)
  | elapse ms => exact h

theorem run_absent (hasClose : String → Bool) (actions : List PageAction) (p : Page) (n : Nat)
    (hn : n < p.nextId) (h : p.present n = false) :
    (Page.run hasClose p actions).present n = false := by
  induction actions generalizing p with
  | nil => exact h
  | cons a rest ih =>
    simp only [Page.run, List.foldl_cons]
    exact ih (Page.step hasClose p a)
      (Nat.lt_of_lt_of_le hn (step_nextId_le hasClose p a)) (step_absent hasClose p a n hn h)

theorem run_body_of_absent (hasClose : String → Bool) (actions : List PageAction) (p : Page)
    (n : Nat) (h : p.present n = false)
    (hact : ∀ a ∈ actions, a = .closeClick n ∨ a = .timerFire n ∨ ∃ ms, a = .elapse ms) :
    (Page.run hasClose p actions).body = p.body := by
  induction actions generalizing p with
  | nil => rfl
  | cons a rest ih =>
    simp only [Page.run, List.foldl_cons]
    have hstep : (Page.step hasClose p a).body = p.body := by
      rcases hact a (List.mem_cons_self _ _) with rfl | rfl | ⟨ms, rfl⟩
      · exact closeClick_body_of_absent p n h
      · exact timerFire_body_of_absent p n h
      · rfl
    have hpres : (Page.step hasClose p a).present n = false := by
      simpa [Page.present, hstep] using h
    have := ih (Page.step hasClose p a) hpres
      (fun b hb => hact b (List.mem_cons_of_mem _ hb))
    simpa [Page.run, hstep] using this

theorem notifyThen_nextId_closeListeners (hasClose : String → Bool) (p : Page)
    (message : String) (type : Option String) (mid : List PageAction)
    (hbtn : hasClose (notificationHtml message) = true) :
    p.nextId < (p.notifyThen hasClose message type mid).nextId ∧
    p.nextId ∈ (p.notifyThen hasClose message type mid).closeListeners := by
  unfold Page.notifyThen
  apply run_nextId_closeListeners
  · simp [showNotification]
  · simp [showNotification, hbtn]

/-- C6: a dismissed notification stays dismissed and removal is idempotent. Once
the close button has removed the notification created by `showNotification`, it
is absent, it is absent after every later sequence of page steps, and a later
sequence made of close clicks on it, firings of its timer and clock advances
leaves the children of the body unchanged. The same holds once its due timer has
removed it, so a close click after the timer is a no-op. Every step is a total
function, so none fails. -/
theorem notification_stays_dismissed (hasClose : String → Bool) (p : Page) (message : String)
    (type : Option String) (mid later : List PageAction)
    (hbtn : hasClose (notificationHtml message) = true) :
    (((p.notifyThen hasClose message type mid).closeClick p.nextId).present p.nextId = false ∧
     (Page.run hasClose ((p.notifyThen hasClose message type mid).closeClick p.nextId)
        later).present p.nextId = false ∧
     ((∀ a ∈ later, a = .closeClick p.nextId ∨ a = .timerFire p.nextId ∨ ∃ ms, a = .elapse ms) →
       (Page.run hasClose ((p.notifyThen hasClose message type mid).closeClick p.nextId)
          later).body = ((p.notifyThen hasClose message type mid).closeClick p.nextId).body)) ∧
    ((p.notifyThen hasClose message type mid).timerDue p.nextId = true →
     ((p.notifyThen hasClose message type mid).timerFire p.nextId).present p.nextId = false ∧
     (Page.run hasClose ((p.notifyThen hasClose message type mid).timerFire p.nextId)
        later).present p.nextId = false ∧
     (((p.notifyThen hasClose message type mid).timerFire p.nextId).closeClick p.nextId).body =
        ((p.notifyThen hasClose message type mid).timerFire p.nextId).body ∧
     ((∀ a ∈ later, a = .closeClick p.nextId ∨ a = .timerFire p.nextId ∨ ∃ ms, a = .elapse ms) →
       (Page.run hasClose ((p.notifyThen hasClose message type mid).timerFire p.nextId)
          later).body = ((p.notifyThen hasClose message type mid).timerFire p.nextId).body)) := by
  obtain ⟨hlt, hmem⟩ := notifyThen_nextId_closeListeners hasClose p message type mid hbtn
  generalize p.notifyThen hasClose message type mid = p1 at hlt hmem ⊢
  have hclick : p1.closeClick p.nextId = p1.remove p.nextId := by
    simp [Page.closeClick, hmem]
  have habs : (p1.remove p.nextId).present p.nextId = false := remove_present_self p1 p.nextId
  have hid : (p1.remove p.nextId).nextId = p1.nextId := rfl
  refine ⟨?_, ?_⟩
  · rw [hclick]
    exact ⟨habs, run_absent hasClose later _ _ (by rw [hid]; exact hlt) habs,
      fun hact => run_body_of_absent hasClose later _ _ habs hact⟩
  · intro hdue
    have hfire_body : (p1.timerFire p.nextId).body = (p1.remove p.nextId).body := by
      simp [Page.timerFire, hdue]
    have hfire_id : (p1.timerFire p.nextId).nextId = p1.nextId := by
      simp [Page.timerFire, hdue, Page.remove]
    have hfabs : (p1.timerFire p.nextId).present p.nextId = false := by
      have := habs
      simpa [Page.present, hfire_body] using this
    exact ⟨hfabs, run_absent hasClose later _ _ (by rw [hfire_id]; exact hlt) hfabs,
      closeClick_body_of_absent _ _ hfabs,
      fun hact => run_body_of_absent hasClose later _ _ hfabs hact⟩

/-- C6 on the sample page: the notification is node 1; it is closed after one
second, and a second click, the passing of its five seconds and its timer leave
the body as the first click left it. -/
theorem notification_stays_dismissed_witness :
    alwaysClose (notificationHtml "Saved") = true ∧
    (samplePage.notifyThen alwaysClose "Saved" (some "success") [.elapse 1000]).present 1 = true ∧
    (Page.run alwaysClose
      ((samplePage.notifyThen alwaysClose "Saved" (some "success") [.elapse 1000]).closeClick 1)
      [.closeClick 1, .elapse 4000, .timerFire 1]).body =
      ((samplePage.notifyThen alwaysClose "Saved" (some "success") [.elapse 1000]).closeClick
        1).body ∧
    ((samplePage.notifyThen alwaysClose "Saved" (some "success") [.elapse 1000]).closeClick
        1).body = samplePage.body := by
  have h := notification_stays_dismissed alwaysClose samplePage "Saved" (some "success")
    [.elapse 1000] [.closeClick 1, .elapse 4000, .timerFire 1] rfl
  refine ⟨rfl, by decide, ?_, by decide⟩
  exact h.1.2.2 (by simp [samplePage])

/-- C7: for every message and kind, `showNotification` appends exactly one
element to the children of the body, a node that was not there before, whose
markup carries the message and whose class name is `notification
notification-<kind>` with the kind defaulting to `info`; the elements already
there stay in place; and exactly one timer for that node is added to the queue,
with delay 5000 ms, where none for it was pending. -/
theorem showNotification_appends_one (hasClose : String → Bool) (p : Page) (message : String)
    (type : Option String) (hwf : p.WF) :
    ∃ e : Element,
      (showNotification hasClose p message type).body = p.body ++ [e] ∧
      p.present e.id = false ∧
      e.innerHTML = notificationHtml message ∧
      (∃ pre post : String, e.innerHTML = pre ++ message ++ post) ∧
      e.className = "notification notification-" ++ type.getD "info" ∧
      (type = none → e.className = "notification notification-info") ∧
      (showNotification hasClose p message type).timers =
        p.timers ++ [{ target := e.id, delay := 5000, due := p.now + 5000 }] ∧
      p.timerPending e.id = false ∧
      (showNotification hasClose p message type).now = p.now := by
  refine ⟨{ id := p.nextId, className := "notification notification-" ++ type.getD "info",
            innerHTML := notificationHtml message }, rfl, ?_, rfl, ⟨_, _, rfl⟩, rfl, ?_, rfl, ?_,
          rfl⟩
  · rw [present_false_iff]
    exact fun e he => Nat.ne_of_lt (hwf.1 e he)
  · rintro rfl
    rfl
  · rw [timerPending_false_iff]
    exact fun t ht => Nat.ne_of_lt (hwf.2 t ht)

/-- C7 on the sample page: a success notification becomes the second child of
the body and the only pending timer is its own, due 5000 ms after the call. -/
theorem showNotification_appends_one_witness :
    samplePage.WF ∧
    (showNotification alwaysClose samplePage "Saved" (some "success")).body =
      samplePage.body ++
        [{ id := 1, className := "notification notification-success",
           innerHTML := notificationHtml "Saved" }] ∧
    (showNotification alwaysClose samplePage "Saved" (some "success")).timers =
      [{ target := 1, delay := 5000, due := 5100 }] := by
  have hwf : samplePage.WF := by
    simp [Page.WF, samplePage]
  obtain ⟨e, hb, -, -, -, -, -, ht, -, -⟩ :=
    showNotification_appends_one alwaysClose samplePage "Saved" (some "success") hwf
  exact ⟨hwf, by decide, by decide⟩

theorem timerFire_of_due (p : Page) (n : Nat) (h : p.timerDue n = true) :
    p.timerFire n = { p.remove n with timers := p.timers.filter (fun t => t.target != n) } := by
  simp [Page.timerFire, h]

theorem timerFire_of_not_due (p : Page) (n : Nat) (h : p.timerDue n = false) :
    p.timerFire n = p := by
  simp [Page.timerFire, h]

theorem showNotification_untouched (hasClose : String → Bool) (p : Page) (message : String)
    (type : Option String) (hwf : p.WF) :
    (showNotification hasClose p message type).Untouched p.nextId p.now := by
  refine ⟨by simp [showNotification], ?_, ?_, ?_⟩
  · intro t ht htn
    simp only [showNotification, List.mem_append, List.mem_singleton] at ht
    rcases ht with ht | rfl
    · exact absurd htn (Nat.ne_of_lt (hwf.2 t ht))
    · rfl
  · intro _
    rw [present_iff]
    refine ⟨{ id := p.nextId, className := "notification notification-" ++ type.getD "info",
              innerHTML := notificationHtml message }, ?_, rfl⟩
    simp [showNotification]
  · intro h
    rw [timerPending_false_iff] at h
    refine absurd rfl (h { target := p.nextId, delay := 5000, due := p.now + 5000 } ?_)
    simp [showNotification]

theorem step_untouched (hasClose : String → Bool) (p : Page) (a : PageAction) (n t0 : Nat)
    (h : p.Untouched n t0) (ha : a ≠ .closeClick n) :
    (Page.step hasClose p a).Untouched n t0 := by
  obtain ⟨hlt, hdue, hpend, hgone⟩ := h
  cases a with
  | notify message type =>
    have hne : p.nextId ≠ n := Nat.ne_of_gt hlt
    have hpend_eq : (showNotification hasClose p message type).timerPending n =
        p.timerPending n := by
      simp [showNotification, Page.timerPending, hne]
    have hpres_eq : (showNotification hasClose p message type).present n = p.present n := by
      simp [showNotification, Page.present, hne]
    refine ⟨Nat.lt_succ_of_lt hlt, ?_, ?_, ?_⟩
    · intro t ht htn
      simp only [Page.step, showNotification, List.mem_append, List.mem_singleton] at ht
      rcases ht with ht | rfl
      · exact hdue t ht htn
      · exact absurd htn hne
    · show (showNotification hasClose p message type).timerPending n = true → _
      rw [hpend_eq]
      intro hp
      show (showNotification hasClose p message type).present n = true
      rw [hpres_eq]
      exact hpend hp
    · show (showNotification hasClose p message type).timerPending n = false → _
      rw [hpend_eq]
      intro hp
      show (showNotification hasClose p message type).present n = false ∧ _
      rw [hpres_eq]
      exact hgone hp
  | closeClick m =>
    have hmn : n ≠ m := fun hnm => ha (by rw [hnm])
    show (p.closeClick m).Untouched n t0
    unfold Page.closeClick
    split
    · refine ⟨hlt, hdue, ?_, ?_⟩
      · intro hp
        rw [remove_present_other p m n hmn]
        exact hpend hp
      · intro hp
        rw [remove_present_other p m n hmn]
        exact hgone hp
    · exact ⟨hlt, hdue, hpend, hgone⟩
  | timerFire m =>
    show (p.timerFire m).Untouched n t0
    cases hd : p.timerDue m with
    | false =>
      rw [timerFire_of_not_due p m hd]
      exact ⟨hlt, hdue, hpend, hgone⟩
    | true =>
      rw [timerFire_of_due p m hd]
      by_cases hmn : n = m
      · subst hmn
        have hnp : Page.timerPending
            { p.remove n with timers := p.timers.filter (fun t => t.target != n) } n = false := by
          rw [timerPending_false_iff]
          intro t ht
          simp only [List.mem_filter] at ht
          simpa using ht.2
        refine ⟨hlt, ?_, ?_, ?_⟩
        · intro t ht htn
          simp only [List.mem_filter] at ht
          exact hdue t ht.1 htn
        · intro hp
          rw [hnp] at hp
          exact absurd hp (by decide)
        · intro _
          refine ⟨remove_present_self p n, ?_⟩
          obtain ⟨t, ht, htn, htd⟩ := (timerDue_iff p n).mp hd
          rw [hdue t ht htn] at htd
          exact htd
      · have hpend_eq : Page.timerPending
            { p.remove m with timers := p.timers.filter (fun t => t.target != m) } n =
            p.timerPending n := by
          rw [Bool.eq_iff_iff, timerPending_iff, timerPending_iff]
          constructor
          · rintro ⟨t, ht, htn⟩
            simp only [List.mem_filter] at ht
            exact ⟨t, ht.1, htn⟩
          · rintro ⟨t, ht, htn⟩
            refine ⟨t, ?_, htn⟩
            simp only [List.mem_filter]
            refine ⟨ht, ?_⟩
            rw [htn]
            simpa using hmn
        have hpres_eq : Page.present
            { p.remove m with timers := p.timers.filter (fun t => t.target != m) } n =
            p.present n := remove_present_other p m n hmn
        refine ⟨hlt, ?_, ?_, ?_⟩
        · intro t ht htn
          simp only [List.mem_filter] at ht
          exact hdue t ht.1 htn
        · rw [hpend_eq, hpres_eq]
          exact hpend
        · rw [hpend_eq, hpres_eq]
          exact hgone
  | elapse ms =>
    refine ⟨hlt, hdue, hpend, ?_⟩
    intro hp
    obtain ⟨h1, h2⟩ := hgone hp
    exact ⟨h1, Nat.le_trans h2 (Nat.le_add_right _ _)⟩

theorem run_untouched (hasClose : String → Bool) (actions : List PageAction) (p : Page)
    (n t0 : Nat) (h : p.Untouched n t0) (hno : ∀ a ∈ actions, a ≠ .closeClick n) :
    (Page.run hasClose p actions).Untouched n t0 := by
  induction actions generalizing p with
  | nil => exact h
  | cons a rest ih =>
    simp only [Page.run, List.foldl_cons]
    exact ih (Page.step hasClose p a)
      (step_untouched hasClose p a n t0 h (hno a (List.mem_cons_self _ _)))
      (fun b hb => hno b (List.mem_cons_of_mem _ hb))

/-- C8: a notification that is never dismissed is on the page until its timer
fires and is gone afterwards. For a notification created at clock `t0` and every
later run of page steps without a click on its close button: while its timer is
pending the node is a child of the body; the timer can fire exactly when it is
pending and the clock has reached `t0 + 5000`; the state after that firing does
not contain the node and no longer holds the timer; and once the timer has left
the queue the node is absent and the clock is at least `t0 + 5000`. -/
theorem notification_removed_when_timer_fires (hasClose : String → Bool) (p : Page)
    (message : String) (type : Option String) (steps : List PageAction) (hwf : p.WF)
    (hno : ∀ a ∈ steps, a ≠ .closeClick p.nextId) :
    ((p.notifyThen hasClose message type steps).timerPending p.nextId = true →
      (p.notifyThen hasClose message type steps).present p.nextId = true) ∧
    ((p.notifyThen hasClose message type steps).timerDue p.nextId = true ↔
      (p.notifyThen hasClose message type steps).timerPending p.nextId = true ∧
      p.now + 5000 ≤ (p.notifyThen hasClose message type steps).now) ∧
    ((p.notifyThen hasClose message type steps).timerDue p.nextId = true →
      ((p.notifyThen hasClose message type steps).timerFire p.nextId).present p.nextId = false ∧
      ((p.notifyThen hasClose message type steps).timerFire p.nextId).timerPending p.nextId =
        false) ∧
    ((p.notifyThen hasClose message type steps).timerPending p.nextId = false →
      (p.notifyThen hasClose message type steps).present p.nextId = false ∧
      p.now + 5000 ≤ (p.notifyThen hasClose message type steps).now) := by
  have hinv : (p.notifyThen hasClose message type steps).Untouched p.nextId p.now :=
    run_untouched hasClose steps _ _ _ (showNotification_untouched hasClose p message type hwf) hno
  generalize p.notifyThen hasClose message type steps = q at hinv ⊢
  obtain ⟨hlt, hdue, hpend, hgone⟩ := hinv
  refine ⟨hpend, ?_, ?_, hgone⟩
  · rw [timerDue_iff, timerPending_iff]
    constructor
    · rintro ⟨t, ht, htn, htd⟩
      rw [hdue t ht htn] at htd
      exact ⟨⟨t, ht, htn⟩, htd⟩
    · rintro ⟨⟨t, ht, htn⟩, hnow⟩
      exact ⟨t, ht, htn, by rw [hdue t ht htn]; exact hnow⟩
  · intro hd
    have hfired := step_untouched hasClose q (.timerFire p.nextId) p.nextId p.now
      ⟨hlt, hdue, hpend, hgone⟩ (by simp)
    have hnp : (q.timerFire p.nextId).timerPending p.nextId = false := by
      rw [timerFire_of_due q _ hd, timerPending_false_iff]
      intro t ht
      simp only [List.mem_filter] at ht
      simpa using ht.2
    exact ⟨(hfired.2.2.2 hnp).1, hnp⟩

/-- C8 on the sample page: the notification is node 1, created at clock 100.
After 4999 ms and a click on the close button of another node it is present and
its timer cannot fire; one millisecond later the timer can fire, and the state
after the firing is the body without the node. -/
theorem notification_removed_when_timer_fires_witness :
    samplePage.WF ∧
    (∀ a ∈ [PageAction.elapse 4999, PageAction.closeClick 0, PageAction.timerFire 1],
      a ≠ PageAction.closeClick samplePage.nextId) ∧
    (samplePage.notifyThen alwaysClose "Saved" none
      [.elapse 4999, .closeClick 0, .timerFire 1]).present 1 = true ∧
    (samplePage.notifyThen alwaysClose "Saved" none
      [.elapse 4999, .closeClick 0, .timerFire 1]).timerDue 1 = false ∧
    (samplePage.notifyThen alwaysClose "Saved" none
      [.elapse 4999, .closeClick 0, .timerFire 1, .elapse 1, .timerFire 1]).body =
      samplePage.body := by
  have hwf : samplePage.WF := by
    simp [Page.WF, samplePage]
  have hno : ∀ a ∈ [PageAction.elapse 4999, PageAction.closeClick 0, PageAction.timerFire 1],
      a ≠ PageAction.closeClick samplePage.nextId := by
    simp [samplePage]
  have h := notification_removed_when_timer_fires alwaysClose samplePage "Saved" none
    [.elapse 4999, .closeClick 0, .timerFire 1] hwf hno
  exact ⟨hwf, hno, h.1 (by decide), by decide, by decide⟩

/-! ## Weather cache: theorems -/

theorem mapGet_mapSet_same (m : List (String × CacheEntry)) (key : String) (v : CacheEntry) :
    mapGet (mapSet m key v) key = some v := by
  induction m with
  | nil => simp [mapSet, mapGet]
  | cons kv rest ih =>
    obtain ⟨k, v0⟩ := kv
    by_cases h : k = key
    · simp [mapSet, mapGet, h]
    · simp [mapSet, mapGet, h, ih]

theorem mapGet_mapSet_other (m : List (String × CacheEntry)) (key k : String) (v : CacheEntry)
    (hk : k ≠ key) : mapGet (mapSet m key v) k = mapGet m k := by
  induction m with
  | nil =>
    have : ¬ key = k := fun h => hk h.symm
    simp [mapSet, mapGet, this]
  | cons kv rest ih =>
    obtain ⟨k0, v0⟩ := kv
    by_cases h : k0 = key
    · subst h
      have hne : ¬ k0 = k := fun h2 => hk h2.symm
      simp [mapSet, mapGet, hne]
    · by_cases h2 : k0 = k
      · subst h2
        simp [mapSet, mapGet, h]
      · simp [mapSet, mapGet, h, h2, ih]

theorem getCurrentWeatherBegin_hit (w : WeatherService) (lat lon : Int) (d : WeatherData)
    (t0 t : Int) (hentry : mapGet w.cache (cacheKey lat lon) = some { data := d, timestamp := t0 })
    (hfresh : t - t0 < w.cacheDuration) :
    getCurrentWeatherBegin w lat lon t = (w, .returned d) := by
  simp [getCurrentWeatherBegin, hentry, hfresh]

theorem getCurrentWeatherBegin_expired (w : WeatherService) (lat lon : Int) (d : WeatherData)
    (t0 t : Int) (hentry : mapGet w.cache (cacheKey lat lon) = some { data := d, timestamp := t0 })
    (hexp : w.cacheDuration ≤ t - t0) :
    getCurrentWeatherBegin w lat lon t =
      ({ w with fetchCalls := w.fetchCalls + 1 }, .awaiting (cacheKey lat lon)) := by
  simp [getCurrentWeatherBegin, hentry, Int.not_lt.mpr hexp]

theorem step_cacheDuration (w : WeatherService) (a : WeatherAction) :
    (w.step a).cacheDuration = w.cacheDuration := by
  cases a with
  | call lat lon now =>
    simp only [WeatherService.step, getCurrentWeatherBegin]
    split
    · split <;> rfl
    · rfl
  | settle generated => rfl
  | resume key settled now fallback =>
    cases settled <;> rfl

theorem step_mapGet (w : WeatherService) (a : WeatherAction) (key : String)
    (h : a.storesUnder key = false) : mapGet (w.step a).cache key = mapGet w.cache key := by
  cases a with
  | call lat lon now =>
    simp only [WeatherService.step, getCurrentWeatherBegin]
    split
    · split <;> rfl
    · rfl
  | settle generated => rfl
  | resume k settled now fallback =>
    cases settled with
    | error e => rfl
    | ok r =>
      have hk : key ≠ k := by
        intro hkk
        simp [WeatherAction.storesUnder, hkk] at h
      exact mapGet_mapSet_other _ _ _ _ hk

theorem run_cacheDuration_mapGet (actions : List WeatherAction) (w : WeatherService)
    (key : String) (h : ∀ a ∈ actions, a.storesUnder key = false) :
    (w.run actions).cacheDuration = w.cacheDuration ∧
    mapGet (w.run actions).cache key = mapGet w.cache key := by
  induction actions generalizing w with
  | nil => exact ⟨rfl, rfl⟩
  | cons a rest ih =>
    simp only [WeatherService.run, List.foldl_cons]
    have := ih (w.step a) (fun b hb => h b (List.mem_cons_of_mem _ hb))
    simp only [WeatherService.run] at this
    rw [this.1, this.2, step_cacheDuration, step_mapGet w a key (h a (List.mem_cons_self _ _))]
    exact ⟨rfl, rfl⟩

/-- C9, as stated, fails when two calls for the same pair overlap. Both miss the
empty cache; the first completes at clock 1000 and stores one record, the second
completes at clock 1500 and stores another; a call at clock 2000, well inside
ten minutes of the first completion, returns the second record. -/
theorem cache_hit_overlapping_calls_counterexample :
    ¬ ∀ (w0 : WeatherService) (lat lon : Int) (d : WeatherData) (t0 t : Int)
        (between : List WeatherAction),
        w0.cacheDuration = 600000 → t - t0 < 600000 →
        (getCurrentWeatherBegin
          (WeatherService.run (getCurrentWeatherResume w0 (cacheKey lat lon) (.ok d) t0 d).1
            between) lat lon t).2 = .returned d := by
  intro h
  have h1 := h (WeatherService.run WeatherService.construct
      [.call 1 103 0, .call 1 103 500, .settle sampleWeather])
    1 103 sampleWeather 1000 2000
    [.settle otherWeather, .resume (cacheKey 1 103) (.ok otherWeather) 1500 otherWeather]
    (by decide) (by decide)
  have h2 : (getCurrentWeatherBegin
      (WeatherService.run
        (getCurrentWeatherResume
          (WeatherService.run WeatherService.construct
            [.call 1 103 0, .call 1 103 500, .settle sampleWeather])
          (cacheKey 1 103) (.ok sampleWeather) 1000 sampleWeather).1
        [.settle otherWeather, .resume (cacheKey 1 103) (.ok otherWeather) 1500 otherWeather])
      1 103 2000).2 = .returned otherWeather := by
    simp [WeatherService.run, WeatherService.step, getCurrentWeatherBegin,
      getCurrentWeatherResume, fetchWeatherDataSettle, WeatherService.construct, mapGet, mapSet]
  rw [h2] at h1
  revert h1
  decide

/-- C9, amended: a weather cache hit. Take any service with the constructor
duration and let a call for `(lat, lon)` complete at clock `t0`, storing the
record `d`. After any further steps of the service among which no other call
stores a record under the same key, a call for the pair at any clock `t` with
`t - t0 < 600000` returns `d` at its cache check and leaves the service as it
is: the cache is unchanged and neither `fetchWeatherData` nor
`getMockWeatherData` is invoked. -/
theorem getCurrentWeather_cache_hit (w0 : WeatherService) (lat lon : Int) (d : WeatherData)
    (t0 t tStore : Int) (fallback generated : WeatherData) (between : List WeatherAction)
    (hdur : w0.cacheDuration = 600000) (hfresh : t - t0 < 600000)
    (hkeep : ∀ a ∈ between, a.storesUnder (cacheKey lat lon) = false) :
    getCurrentWeatherBegin
        (WeatherService.run
          (getCurrentWeatherResume w0 (cacheKey lat lon) (.ok d) t0 fallback).1 between)
        lat lon t =
      (WeatherService.run
          (getCurrentWeatherResume w0 (cacheKey lat lon) (.ok d) t0 fallback).1 between,
        .returned d) ∧
    getCurrentWeather
        (WeatherService.run
          (getCurrentWeatherResume w0 (cacheKey lat lon) (.ok d) t0 fallback).1 between)
        lat lon t tStore generated =
      (WeatherService.run
          (getCurrentWeatherResume w0 (cacheKey lat lon) (.ok d) t0 fallback).1 between, d) := by
  obtain ⟨hd, hg⟩ := run_cacheDuration_mapGet between
    (getCurrentWeatherResume w0 (cacheKey lat lon) (.ok d) t0 fallback).1 (cacheKey lat lon) hkeep
  have hd2 : (getCurrentWeatherResume w0 (cacheKey lat lon) (.ok d) t0 fallback).1.cacheDuration
      = 600000 := hdur
  have hg2 : mapGet (getCurrentWeatherResume w0 (cacheKey lat lon) (.ok d) t0 fallback).1.cache
      (cacheKey lat lon) = some { data := d, timestamp := t0 } := mapGet_mapSet_same _ _ _
  rw [hd2] at hd
  rw [hg2] at hg
  generalize WeatherService.run
    (getCurrentWeatherResume w0 (cacheKey lat lon) (.ok d) t0 fallback).1 between = w at hd hg ⊢
  have hb := getCurrentWeatherBegin_hit w lat lon d t0 t hg (by rw [hd]; exact hfresh)
  refine ⟨hb, ?_⟩
  unfold getCurrentWeather
  rw [hb]

/-- C9, amended, on a concrete run: the entry for (1, 103) is stored at clock
1000; a call for another pair then completes at clock 5000; a call for
(1, 103) one millisecond before the ten minutes are over returns the stored
record without any further fetch. -/
theorem getCurrentWeather_cache_hit_witness :
    WeatherService.construct.cacheDuration = 600000 ∧
    (600999 : Int) - 1000 < 600000 ∧
    (getCurrentWeather
      (WeatherService.run
        (getCurrentWeatherResume WeatherService.construct (cacheKey 1 103) (.ok sampleWeather)
          1000 otherWeather).1
        [.call 2 104 4000, .settle otherWeather,
         .resume (cacheKey 2 104) (.ok otherWeather) 5000 otherWeather])
      1 103 600999 602000 otherWeather).2 = sampleWeather := by
  have h := getCurrentWeather_cache_hit WeatherService.construct 1 103 sampleWeather
    1000 600999 602000 otherWeather otherWeather
    [.call 2 104 4000, .settle otherWeather,
     .resume (cacheKey 2 104) (.ok otherWeather) 5000 otherWeather]
    (by decide) (by decide) (by decide)
  refine ⟨by decide, by decide, ?_⟩
  rw [h.2]

/-- C10: expiry of a weather cache entry. The constructor sets a validity window
of exactly 600000 ms. With an entry for the key stored at clock `t0`, a call at
clock `t` with `t - t0 >= 600000` does not return at the cache check but invokes
`fetchWeatherData`, and with it `getMockWeatherData`, exactly once. When the
fetched record arrives it is returned and stored under the key with the clock
read at that moment, `tStore`, as its timestamp; the entry of every other key is
unchanged. The resumption does so on whatever state it finds. -/
theorem getCurrentWeather_cache_expiry (w : WeatherService) (lat lon : Int) (d : WeatherData)
    (t0 t tStore : Int) (generated fallback : WeatherData)
    (hdur : w.cacheDuration = 600000)
    (hentry : mapGet w.cache (cacheKey lat lon) = some { data := d, timestamp := t0 })
    (hexp : 600000 ≤ t - t0) :
    WeatherService.construct.cacheDuration = 10 * 60 * 1000 ∧
    WeatherService.construct.cacheDuration = 600000 ∧
    getCurrentWeatherBegin w lat lon t =
      ({ w with fetchCalls := w.fetchCalls + 1 }, .awaiting (cacheKey lat lon)) ∧
    (getCurrentWeather w lat lon t tStore generated).2 = generated ∧
    (getCurrentWeather w lat lon t tStore generated).1.fetchCalls = w.fetchCalls + 1 ∧
    (getCurrentWeather w lat lon t tStore generated).1.mockCalls = w.mockCalls + 1 ∧
    mapGet (getCurrentWeather w lat lon t tStore generated).1.cache (cacheKey lat lon) =
      some { data := generated, timestamp := tStore } ∧
    (∀ k, k ≠ cacheKey lat lon →
      mapGet (getCurrentWeather w lat lon t tStore generated).1.cache k = mapGet w.cache k) ∧
    (getCurrentWeather w lat lon t tStore generated).1.cacheDuration = 600000 ∧
    (∀ w1 : WeatherService,
      (getCurrentWeatherResume w1 (cacheKey lat lon) (.ok generated) tStore fallback).2 =
        generated ∧
      mapGet (getCurrentWeatherResume w1 (cacheKey lat lon) (.ok generated) tStore
        fallback).1.cache (cacheKey lat lon) = some { data := generated, timestamp := tStore } ∧
      (∀ k, k ≠ cacheKey lat lon →
        mapGet (getCurrentWeatherResume w1 (cacheKey lat lon) (.ok generated) tStore
          fallback).1.cache k = mapGet w1.cache k)) := by
  have hb := getCurrentWeatherBegin_expired w lat lon d t0 t hentry (by rw [hdur]; exact hexp)
  have hcall : getCurrentWeather w lat lon t tStore generated =
      ({ w with fetchCalls := w.fetchCalls + 1, mockCalls := w.mockCalls + 1,
                cache := mapSet w.cache (cacheKey lat lon)
                  { data := generated, timestamp := tStore } }, generated) := by
    unfold getCurrentWeather
    rw [hb]
    simp [fetchWeatherDataSettle, getCurrentWeatherResume]
  refine ⟨rfl, by decide, hb, ?_, ?_, ?_, ?_, ?_, ?_, ?_⟩
  · rw [hcall]
  · rw [hcall]
  · rw [hcall]
  · rw [hcall]
    exact mapGet_mapSet_same _ _ _
  · intro k hk
    rw [hcall]
    exact mapGet_mapSet_other _ _ _ _ hk
  · rw [hcall]
    exact hdur
  · intro w1
    refine ⟨rfl, mapGet_mapSet_same _ _ _, ?_⟩
    intro k hk
    exact mapGet_mapSet_other _ _ _ _ hk

/-- C10 on the sample service: its entry was stored at clock 1000; a call at
clock 601000, exactly ten minutes later, fetches again and replaces the entry
with the new record and the timestamp 602000. -/
theorem getCurrentWeather_cache_expiry_witness :
    sampleService.cacheDuration = 600000 ∧
    mapGet sampleService.cache (cacheKey 1 103) =
      some { data := sampleWeather, timestamp := 1000 } ∧
    (600000 : Int) ≤ 601000 - 1000 ∧
    (getCurrentWeather sampleService 1 103 601000 602000 otherWeather).2 = otherWeather ∧
    mapGet (getCurrentWeather sampleService 1 103 601000 602000 otherWeather).1.cache
      (cacheKey 1 103) = some { data := otherWeather, timestamp := 602000 } := by
  have hdur : sampleService.cacheDuration = 600000 := by decide
  have hentry : mapGet sampleService.cache (cacheKey 1 103) =
      some { data := sampleWeather, timestamp := 1000 } := by
    simp [sampleService, getCurrentWeather, getCurrentWeatherBegin, getCurrentWeatherResume,
      fetchWeatherDataSettle, WeatherService.construct, mapGet, mapSet]
  have h := getCurrentWeather_cache_expiry sampleService 1 103 sampleWeather 1000 601000 602000
    otherWeather otherWeather hdur hentry (by decide)
  exact ⟨hdur, hentry, by decide, h.2.2.2.1, h.2.2.2.2.2.2.1⟩

/-! ## Weather mock generator: theorems -/

theorem randomIndex_lt (r : ℚ) (n : Nat) (h0 : 0 ≤ r) (h1 : r < 1) (hn : 0 < n) :
    randomIndex r n < n := by
  unfold randomIndex
  have hn' : (0 : ℚ) < (n : ℚ) := by exact_mod_cast hn
  have hlt : ⌊r * (n : ℚ)⌋ < (n : ℤ) := by
    rw [Int.floor_lt]
    push_cast
    nlinarith
  have hge : 0 ≤ ⌊r * (n : ℚ)⌋ := Int.floor_nonneg.mpr (mul_nonneg h0 (le_of_lt hn'))
  omega

theorem getD_mem_of_lt {α : Type} (l : List α) (i : Nat) (d : α) (h : i < l.length) :
    l.getD i d ∈ l := by
  rw [List.getD_eq_getElem l d h]
  exact List.getElem_mem h

theorem getMockWeatherData_icon (rTemp rCond rWind rHum : ℚ) :
    (getMockWeatherData rTemp rCond rWind rHum).icon = getWeatherIcon "Sunny" := rfl

/-- C11: a failing `fetchWeatherData` is not propagated. The cache check leaves
the cache as it is, and when the awaited fetch rejects, in whatever state the
service then is, `getCurrentWeather` returns the record of `getMockWeatherData`
and the cache is unchanged, so the substitute is not cached. For draws of
`Math.random` in `[0, 1)` that record has a temperature from
`{65, 68, 72, 75, 78, 82}`, a wind speed from `{5, 8, 12, 15, 18}`, a humidity
in `[40, 80)` and a condition from the list of five. -/
theorem getCurrentWeather_fetch_failure (w w1 : WeatherService) (lat lon : Int)
    (nowCall nowResume : Int) (e : String) (rTemp rCond rWind rHum : ℚ)
    (hT0 : 0 ≤ rTemp) (hT1 : rTemp < 1) (hC0 : 0 ≤ rCond) (hC1 : rCond < 1)
    (hW0 : 0 ≤ rWind) (hW1 : rWind < 1) (hH0 : 0 ≤ rHum) (hH1 : rHum < 1) :
    (getCurrentWeatherBegin w lat lon nowCall).1.cache = w.cache ∧
    (getCurrentWeatherResume w1 (cacheKey lat lon) (.error e) nowResume
      (getMockWeatherData rTemp rCond rWind rHum)).2 =
        getMockWeatherData rTemp rCond rWind rHum ∧
    (getCurrentWeatherResume w1 (cacheKey lat lon) (.error e) nowResume
      (getMockWeatherData rTemp rCond rWind rHum)).1.cache = w1.cache ∧
    (getCurrentWeatherResume w1 (cacheKey lat lon) (.error e) nowResume
      (getMockWeatherData rTemp rCond rWind rHum)).1.mockCalls = w1.mockCalls + 1 ∧
    (getMockWeatherData rTemp rCond rWind rHum).temperature ∈ [65, 68, 72, 75, 78, 82] ∧
    (getMockWeatherData rTemp rCond rWind rHum).windSpeed ∈ [5, 8, 12, 15, 18] ∧
    40 ≤ (getMockWeatherData rTemp rCond rWind rHum).humidity ∧
    (getMockWeatherData rTemp rCond rWind rHum).humidity < 80 ∧
    (getMockWeatherData rTemp rCond rWind rHum).condition ∈
      ["Sunny", "Partly Cloudy", "Cloudy", "Light Rain", "Clear"] := by
  refine ⟨?_, rfl, rfl, rfl, ?_, ?_, ?_, ?_, ?_⟩
  · simp only [getCurrentWeatherBegin]
    split
    · split <;> rfl
    · rfl
  · exact getD_mem_of_lt mockTemps _ 0 (randomIndex_lt rTemp _ hT0 hT1 (by decide))
  · exact getD_mem_of_lt mockWinds _ 0 (randomIndex_lt rWind _ hW0 hW1 (by decide))
  · have hge : 0 ≤ ⌊rHum * 40⌋ := Int.floor_nonneg.mpr (mul_nonneg hH0 (by norm_num))
    show 40 ≤ (⌊rHum * 40⌋ + 40).toNat
    omega
  · have hge : 0 ≤ ⌊rHum * 40⌋ := Int.floor_nonneg.mpr (mul_nonneg hH0 (by norm_num))
    have hlt : ⌊rHum * 40⌋ < 40 := by
      rw [Int.floor_lt]
      push_cast
      linarith
    show (⌊rHum * 40⌋ + 40).toNat < 80
    omega
  · exact getD_mem_of_lt mockConditions _ "" (randomIndex_lt rCond _ hC0 hC1 (by decide))

/-- C11 on the sample service: the fetch of a call for another pair rejects; the
caller gets a mock record and the cache still holds only the first entry. -/
theorem getCurrentWeather_fetch_failure_witness :
    (0 : ℚ) ≤ 1 / 2 ∧ (1 / 2 : ℚ) < 1 ∧
    (getCurrentWeatherResume sampleService (cacheKey 2 104) (.error "offline") 5000
      (getMockWeatherData (1 / 2) (1 / 2) (1 / 2) (1 / 2))).1.cache = sampleService.cache ∧
    (getMockWeatherData (1 / 2) (1 / 2) (1 / 2) (1 / 2)).temperature ∈
      [65, 68, 72, 75, 78, 82] := by
  have h := getCurrentWeather_fetch_failure sampleService sampleService 2 104 4000 5000
    "offline" (1 / 2) (1 / 2) (1 / 2) (1 / 2)
    (by norm_num) (by norm_num) (by norm_num) (by norm_num)
    (by norm_num) (by norm_num) (by norm_num) (by norm_num)
  exact ⟨by norm_num, by norm_num, h.2.2.1, h.2.2.2.2.1⟩

/-- C20, evaluated at a failing draw: `getMockWeatherData` computes the icon from
`conditions[0]`, so every record carries the icon of `Sunny`; with the condition
draw one half the sampled condition is `Cloudy`, whose icon is another one. -/
theorem getMockWeatherData_icon_ignores_condition (rTemp rWind rHum : ℚ) :
    (getMockWeatherData rTemp (1 / 2) rWind rHum).condition = "Cloudy" ∧
    (getMockWeatherData rTemp (1 / 2) rWind rHum).icon = getWeatherIcon "Sunny" ∧
    (getMockWeatherData rTemp (1 / 2) rWind rHum).icon ≠
      getWeatherIcon (getMockWeatherData rTemp (1 / 2) rWind rHum).condition := by
  have hidx : randomIndex (1 / 2) mockConditions.length = 2 := by
    unfold randomIndex
    have : ⌊(1 / 2 : ℚ) * ((mockConditions.length : ℕ) : ℚ)⌋ = 2 := by
      rw [Int.floor_eq_iff]
      simp only [mockConditions, List.length_cons, List.length_nil]
      norm_num
    rw [this]
    rfl
  have hc : (getMockWeatherData rTemp (1 / 2) rWind rHum).condition = "Cloudy" := by
    show mockConditions.getD (randomIndex (1 / 2) mockConditions.length) "" = "Cloudy"
    rw [hidx]
    rfl
  refine ⟨hc, rfl, ?_⟩
  rw [hc, getMockWeatherData_icon]
  decide

/-! ## Impact tracker: theorems -/

/-- C14: for every draw `r` with `0 <= r < 1` the `plasticRemoved` value of
`fetchImpactData`, `floor(r * 20000) + 10000`, is an integer `n` with
`10000 <= n < 30000`, and every integer of that range is the value for some
draw. -/
theorem fetchImpactData_plasticRemoved_range (r1 r2 r3 r4 r5 r6 r7 : ℚ)
    (h0 : 0 ≤ r2) (h1 : r2 < 1) :
    (fetchImpactData r1 r2 r3 r4 r5 r6 r7).plasticRemoved = ⌊r2 * 20000⌋ + 10000 ∧
    10000 ≤ (fetchImpactData r1 r2 r3 r4 r5 r6 r7).plasticRemoved ∧
    (fetchImpactData r1 r2 r3 r4 r5 r6 r7).plasticRemoved < 30000 ∧
    (∀ n : Int, 10000 ≤ n → n < 30000 →
      ∃ r : ℚ, 0 ≤ r ∧ r < 1 ∧ (fetchImpactData r1 r r3 r4 r5 r6 r7).plasticRemoved = n) := by
  have hge : 0 ≤ ⌊r2 * 20000⌋ := Int.floor_nonneg.mpr (mul_nonneg h0 (by norm_num))
  have hlt : ⌊r2 * 20000⌋ < 20000 := by
    rw [Int.floor_lt]
    push_cast
    linarith
  refine ⟨rfl, ?_, ?_, ?_⟩
  · show 10000 ≤ ⌊r2 * 20000⌋ + 10000
    omega
  · show ⌊r2 * 20000⌋ + 10000 < 30000
    omega
  · intro n hn0 hn1
    refine ⟨((n - 10000 : ℤ) : ℚ) / 20000, ?_, ?_, ?_⟩
    · apply div_nonneg
      · exact_mod_cast (by omega : (0 : ℤ) ≤ n - 10000)
      · norm_num
    · rw [div_lt_one (by norm_num)]
      exact_mod_cast (by omega : n - 10000 < 20000)
    · show ⌊((n - 10000 : ℤ) : ℚ) / 20000 * 20000⌋ + 10000 = n
      rw [div_mul_cancel₀ _ (by norm_num : (20000 : ℚ) ≠ 0), Int.floor_intCast]
      omega

/-- C14 at the draw one half, which gives 20000 kilograms. -/
theorem fetchImpactData_plasticRemoved_range_witness :
    (0 : ℚ) ≤ 1 / 2 ∧ (1 / 2 : ℚ) < 1 ∧
    (fetchImpactData 0 (1 / 2) 0 0 0 0 0).plasticRemoved = 20000 := by
  have h := fetchImpactData_plasticRemoved_range 0 (1 / 2) 0 0 0 0 0 (by norm_num) (by norm_num)
  refine ⟨by norm_num, by norm_num, ?_⟩
  rw [h.1]
  norm_num

/-- C15, evaluated at a failing key: for `beachesCleaned` the observed element id
is `beaches-cleaned`, the callback turns it into `beachescleaned`, which is no
key of `impactData`, and the target passed to `animateNumber` is 0 although the
counter holds 127. Of the seven keys only `volunteers`, which has no capital
letter, is mapped back to itself. -/
theorem counterKey_loses_capitals :
    counterId "beachesCleaned" = "beaches-cleaned" ∧
    counterKey (counterId "beachesCleaned") = "beachescleaned" ∧
    counterKey (counterId "beachesCleaned") ≠ "beachesCleaned" ∧
    ImpactData.fallback.get "beachesCleaned" = some 127 ∧
    counterTarget ImpactData.fallback (counterId "beachesCleaned") = 0 ∧
    impactKeys.filter (fun k => counterKey (counterId k) = k) = ["volunteers"] := by
  decide

/-- C19, evaluated at the constructor state: `init` draws the chart before the
fetched data has arrived, every charted value is zero, so `maxValue` is zero and
each of the four bar heights is a division by zero, not a number between 0 and
the plot height. -/
theorem drawChart_divides_by_zero_on_initial_data (height : ℚ) :
    chartMaxValue ImpactData.initial = 0 ∧
    chartBarHeights ImpactData.initial height = [none, none, none, none] ∧
    ImpactTracker.initChart (some height) = some [none, none, none, none] := by
  have hmax : chartMaxValue ImpactData.initial = 0 := by
    simp [chartMaxValue, chartData, ImpactData.initial]
  have hbars : chartBarHeights ImpactData.initial height = [none, none, none, none] := by
    simp [chartBarHeights, hmax, jsDiv, chartData]
  exact ⟨hmax, hbars, by simp [ImpactTracker.initChart, hbars]⟩

/-! ## Events: failure of the fetch -/

/-- C12, as stated, fails: when the fetch rejects on the freshly constructed
manager, `events` and `filteredEvents` are still empty afterwards; no mock list
is substituted. -/
theorem loadEvents_failure_counterexample :
    ¬ ∀ (s : EventsManager) (e : String),
        (loadEventsResume sampleIntl s (.error e)).events ≠ [] ∧
        (loadEventsResume sampleIntl s (.error e)).filteredEvents ≠ [] := by
  intro h
  exact (h (EventsManager.construct [] (some "")) "offline").1 (by decide)

/-- C12, amended: when the events fetch fails, `loadEvents` handles the failure
locally and does not propagate it; it leaves `events`, `filteredEvents` and the
active filter as they were, so both lists stay empty after construction, and it
writes the error markup with the `Try Again` button into `#events-grid`. -/
theorem loadEvents_failure_renders_error (intl : DateTimeOptions → String → String)
    (s : EventsManager) (e : String) (filterBtns : List FilterBtn) (grid : Option String) :
    (loadEventsResume intl s (.error e)).events = s.events ∧
    (loadEventsResume intl s (.error e)).filteredEvents = s.filteredEvents ∧
    (loadEventsResume intl s (.error e)).currentFilter = s.currentFilter ∧
    (loadEventsResume intl s (.error e)).eventsGrid =
      s.eventsGrid.map (fun _ => eventsErrorHtml) ∧
    (loadEventsResume intl (EventsManager.construct filterBtns grid) (.error e)).events = [] ∧
    (loadEventsResume intl (EventsManager.construct filterBtns grid) (.error e)).filteredEvents
      = [] := by
  have hgen : ∀ t : EventsManager,
      (loadEventsResume intl t (.error e)).events = t.events ∧
      (loadEventsResume intl t (.error e)).filteredEvents = t.filteredEvents ∧
      (loadEventsResume intl t (.error e)).currentFilter = t.currentFilter ∧
      (loadEventsResume intl t (.error e)).eventsGrid =
        t.eventsGrid.map (fun _ => eventsErrorHtml) := by
    intro t
    simp only [loadEventsResume, renderError]
    cases hg : t.eventsGrid <;> simp [hg]
  have hc := hgen (EventsManager.construct filterBtns grid)
  refine ⟨(hgen s).1, (hgen s).2.1, (hgen s).2.2.1, (hgen s).2.2.2, ?_, ?_⟩
  · rw [hc.1]
    cases grid <;> rfl
  · rw [hc.2.1]
    cases grid <;> rfl

/-! ## Navigation menu: theorems -/

theorem step_ariaTracks (s : NavigationController) (a : NavAction) (t : NavToggle) (m : NavMenu)
    (ht : s.navToggle = some t) (hm : s.navMenu = some m) :
    (s.step a).ariaTracks := by
  have hopen : (openMenu s).ariaTracks :=
    ⟨{ t with ariaExpanded := some "true" }, { m with active := true },
      by simp [openMenu, ht], by simp [openMenu, hm], by simp [openMenu], by simp [openMenu]⟩
  have hclose : (closeMenu s).ariaTracks :=
    ⟨{ t with ariaExpanded := some "false" }, { m with active := false },
      by simp [closeMenu, ht], by simp [closeMenu, hm], by simp [closeMenu], by simp [closeMenu]⟩
  cases a with
  | toggleMenu =>
    show (toggleMenu s).ariaTracks
    unfold toggleMenu
    split
    · exact hclose
    · exact hopen
  | openMenu => exact hopen
  | closeMenu => exact hclose

theorem run_ariaTracks (actions : List NavAction) (s : NavigationController)
    (h : s.ariaTracks) : (s.run actions).ariaTracks := by
  induction actions generalizing s with
  | nil => exact h
  | cons a rest ih =>
    obtain ⟨t, m, ht, hm, -, -⟩ := h
    simp only [NavigationController.run, List.foldl_cons]
    exact ih (s.step a) (step_ariaTracks s a t m ht hm)

/-- C16, as stated, fails in the constructed state on a page whose menu element
carries the class `active` in its markup: the constructor sets `isMenuOpen` to
false and `setupAccessibility` sets `aria-expanded`, but nothing removes the
class before the first call. -/
theorem ariaTracks_constructed_counterexample :
    ¬ ∀ (t : NavToggle) (m : NavMenu) (actions : List NavAction),
        ((NavigationController.construct (some t) (some m)).run actions).ariaTracks := by
  intro h
  obtain ⟨t, m, ht, hm, -, hact⟩ :=
    h { ariaExpanded := none, ariaLabel := none } { active := true, hasLink := true } []
  have hm2 : m = { active := true, hasLink := true } := by
    simpa [NavigationController.run, NavigationController.construct, setupAccessibility]
      using hm.symm
  rw [hm2] at hact
  have : (NavigationController.construct
      (some { ariaExpanded := none, ariaLabel := none })
      (some { active := true, hasLink := true })).isMenuOpen = true := hact.mp rfl
  revert this
  decide

/-- C16, amended: with the toggle and menu elements present, in every state
reached from construction by a sequence of `toggleMenu`, `openMenu` and
`closeMenu` calls, a non-empty sequence if the menu element carries the class
`active` in its markup, the toggle has `aria-expanded` equal to `true` exactly
when `isMenuOpen` is true and the menu has class `active` exactly when
`isMenuOpen` is true; `toggleMenu` flips `isMenuOpen`; `closeMenu` is
idempotent. -/
theorem navigation_aria_tracks_menu (t : NavToggle) (m : NavMenu) (actions : List NavAction)
    (h : m.active = false ∨ actions ≠ []) :
    ((NavigationController.construct (some t) (some m)).run actions).ariaTracks ∧
    (∀ s : NavigationController, (toggleMenu s).isMenuOpen = !s.isMenuOpen) ∧
    (∀ s : NavigationController, closeMenu (closeMenu s) = closeMenu s) := by
  refine ⟨?_, ?_, ?_⟩
  · rcases h with h | h
    · apply run_ariaTracks
      refine ⟨{ ariaExpanded := some "false", ariaLabel := some "Toggle navigation menu" }, m,
        rfl, rfl, ?_, ?_⟩
      · simp [NavigationController.construct, setupAccessibility]
      · simp [NavigationController.construct, setupAccessibility, h]
    · cases actions with
      | nil => exact absurd rfl h
      | cons a rest =>
        simp only [NavigationController.run, List.foldl_cons]
        exact run_ariaTracks rest _
          (step_ariaTracks _ a
            { ariaExpanded := some "false", ariaLabel := some "Toggle navigation menu" } m
            rfl rfl)
  · intro s
    unfold toggleMenu
    cases hs : s.isMenuOpen <;> simp [openMenu, closeMenu]
  · intro s
    cases s with
    | mk o nt nm f =>
      cases nt <;> cases nm <;> simp [closeMenu]

/-- C16, amended, on a page whose menu starts closed: after opening, toggling and
toggling again the menu is open, `aria-expanded` is `true` and the class is set. -/
theorem navigation_aria_tracks_menu_witness :
    ((NavigationController.construct (some { ariaExpanded := none, ariaLabel := none })
      (some { active := false, hasLink := true })).run
      [.openMenu, .toggleMenu, .toggleMenu]).ariaTracks ∧
    ((NavigationController.construct (some { ariaExpanded := none, ariaLabel := none })
      (some { active := false, hasLink := true })).run
      [.openMenu, .toggleMenu, .toggleMenu]) =
      { isMenuOpen := true
        navToggle := some { ariaExpanded := some "true",
                            ariaLabel := some "Toggle navigation menu" }
        navMenu := some { active := true, hasLink := true }
        firstLinkFocused := true } := by
  have h := navigation_aria_tracks_menu { ariaExpanded := none, ariaLabel := none }
    { active := false, hasLink := true } [.openMenu, .toggleMenu, .toggleMenu] (Or.inl rfl)
  exact ⟨h.1, by decide⟩

/-! ## Map: theorems -/

theorem toggles_succ (s : MapController) (n : Nat) :
    s.toggles (n + 1) = toggleCleanupSpots (s.toggles n) := by
  simp only [MapController.toggles]
  exact Function.iterate_succ_apply' toggleCleanupSpots n s

theorem toggle_toggle_initial :
    toggleCleanupSpots (toggleCleanupSpots (initializeMap (some true))) =
      initializeMap (some true) := by
  simp [toggleCleanupSpots, initializeMap, addCleanupLocations, cleanupLocations]

theorem toggles_initial (n : Nat) :
    (initializeMap (some true)).toggles n = initializeMap (some true) ∨
    (initializeMap (some true)).toggles n = toggleCleanupSpots (initializeMap (some true)) := by
  induction n with
  | zero => exact Or.inl rfl
  | succ k ih =>
    rw [toggles_succ]
    rcases ih with ih | ih
    · exact Or.inr (by rw [ih])
    · exact Or.inl (by rw [ih, toggle_toggle_initial])

/-- C13, as stated, fails on a page whose `#cleanup-spots` button does not carry
the class `active` when the map is initialised: the markers are shown, and the
first call of `toggleCleanupSpots` takes the branch that shows them, so they are
still shown and not hidden. -/
theorem toggleCleanupSpots_inactive_button_counterexample :
    ¬ ∀ (btn : Option Bool) (n : Nat),
        ((initializeMap btn).toggles n).shown = true →
        (toggleCleanupSpots ((initializeMap btn).toggles n)).hidden = true := by
  intro h
  have h1 := h (some false) 0 (by
    simp [MapController.toggles, MapController.shown, initializeMap, addCleanupLocations,
      cleanupLocations])
  revert h1
  simp [MapController.toggles, MapController.hidden, initializeMap, addCleanupLocations,
    cleanupLocations, toggleCleanupSpots]

theorem toggle_inactive_initial :
    toggleCleanupSpots (initializeMap (some false)) = initializeMap (some true) := by
  simp [toggleCleanupSpots, initializeMap, addCleanupLocations, cleanupLocations]

theorem toggles_inactive_succ (n : Nat) :
    (initializeMap (some false)).toggles (n + 1) = (initializeMap (some true)).toggles n := by
  simp only [MapController.toggles]
  rw [Function.iterate_succ_apply, toggle_inactive_initial]

theorem two_state_flip (s : MapController)
    (h : s = initializeMap (some true) ∨ s = toggleCleanupSpots (initializeMap (some true))) :
    ((s.shown = true ∧ s.hidden = false ∧ s.cleanupBtn = some true) ∨
      (s.hidden = true ∧ s.shown = false ∧ s.cleanupBtn = some false)) ∧
    (s.shown = true →
      (toggleCleanupSpots s).hidden = true ∧ (toggleCleanupSpots s).shown = false) ∧
    (s.hidden = true →
      (toggleCleanupSpots s).shown = true ∧ (toggleCleanupSpots s).hidden = false) ∧
    toggleCleanupSpots (toggleCleanupSpots s) = s := by
  have hs0 : (initializeMap (some true)).shown = true ∧
      (initializeMap (some true)).hidden = false ∧
      (initializeMap (some true)).cleanupBtn = some true := by
    simp [MapController.shown, MapController.hidden, initializeMap, addCleanupLocations,
      cleanupLocations]
  have hs1 : (toggleCleanupSpots (initializeMap (some true))).hidden = true ∧
      (toggleCleanupSpots (initializeMap (some true))).shown = false ∧
      (toggleCleanupSpots (initializeMap (some true))).cleanupBtn = some false := by
    simp [MapController.shown, MapController.hidden, initializeMap, addCleanupLocations,
      cleanupLocations, toggleCleanupSpots]
  rcases h with h | h
  · rw [h]
    refine ⟨Or.inl hs0, fun _ => ⟨hs1.1, hs1.2.1⟩, ?_, toggle_toggle_initial⟩
    intro hh
    rw [hs0.2.1] at hh
    exact absurd hh (by decide)
  · rw [h, toggle_toggle_initial]
    refine ⟨Or.inr hs1, ?_, fun _ => ⟨hs0.1, hs0.2.1⟩, rfl⟩
    intro hh
    rw [hs1.2.1] at hh
    exact absurd hh (by decide)

/-- C13, amended: with the `#cleanup-spots` button present, the visibility of the
cleanup markers is a two-state machine in every state reached from a successful
`initializeMap` by calls of `toggleCleanupSpots`, at least one call if the button
does not carry the class `active` when the map is initialised. In every such
state the markers are either all shown, with the button active, or all hidden,
with the button inactive; one call takes shown to hidden and hidden to shown,
all markers together; and two consecutive calls restore the state. -/
theorem toggleCleanupSpots_flips_visibility (active : Bool) (n : Nat)
    (h : active = true ∨ 0 < n) :
    ((((initializeMap (some active)).toggles n).shown = true ∧
        ((initializeMap (some active)).toggles n).hidden = false ∧
        ((initializeMap (some active)).toggles n).cleanupBtn = some true) ∨
      (((initializeMap (some active)).toggles n).hidden = true ∧
        ((initializeMap (some active)).toggles n).shown = false ∧
        ((initializeMap (some active)).toggles n).cleanupBtn = some false)) ∧
    (((initializeMap (some active)).toggles n).shown = true →
      (toggleCleanupSpots ((initializeMap (some active)).toggles n)).hidden = true ∧
      (toggleCleanupSpots ((initializeMap (some active)).toggles n)).shown = false) ∧
    (((initializeMap (some active)).toggles n).hidden = true →
      (toggleCleanupSpots ((initializeMap (some active)).toggles n)).shown = true ∧
      (toggleCleanupSpots ((initializeMap (some active)).toggles n)).hidden = false) ∧
    toggleCleanupSpots (toggleCleanupSpots ((initializeMap (some active)).toggles n)) =
      (initializeMap (some active)).toggles n := by
  apply two_state_flip
  cases active with
  | true => exact toggles_initial n
  | false =>
    cases n with
    | zero =>
      rcases h with h | h
      · exact absurd h (by decide)
      · exact absurd h (Nat.lt_irrefl 0)
    | succ k =>
      rw [toggles_inactive_succ]
      exact toggles_initial k

/-- C13, amended, on a page whose button starts without the class `active`: the
first call leaves the markers shown and activates the button, and from then on
each call flips them, so the second call hides all three markers. -/
theorem toggleCleanupSpots_flips_visibility_witness :
    ((false = true) ∨ 0 < 1) ∧
    ((initializeMap (some false)).toggles 1).shown = true ∧
    ((initializeMap (some false)).toggles 1).cleanupBtn = some true ∧
    (toggleCleanupSpots ((initializeMap (some false)).toggles 1)).hidden = true ∧
    (toggleCleanupSpots ((initializeMap (some false)).toggles 1)).shown = false := by
  have h := toggleCleanupSpots_flips_visibility false 1 (Or.inr (Nat.lt_succ_self 0))
  have hshown : ((initializeMap (some false)).toggles 1).shown = true := by
    rcases h.1 with h1 | h1
    · exact h1.1
    · exfalso
      have hb : ((initializeMap (some false)).toggles 1).cleanupBtn = some true := by
        rw [toggles_inactive_succ]
        rfl
      rw [hb] at h1
      exact absurd h1.2.2 (by decide)
  have hbtn : ((initializeMap (some false)).toggles 1).cleanupBtn = some true := by
    rw [toggles_inactive_succ]
    rfl
  exact ⟨Or.inr (Nat.lt_succ_self 0), hshown, hbtn, (h.2.1 hshown).1, (h.2.1 hshown).2⟩

/-! ## Number animation: theorems -/

theorem ticks_succ (a : Animation) (n : Nat) : a.ticks (n + 1) = (a.ticks n).tick := by
  simp only [Animation.ticks]
  exact Function.iterate_succ_apply' Animation.tick n a

theorem animateNumber_downward_state (n : Nat) :
    ((animateNumber (some 10) 0 (some 8)).ticks n).timerActive = true ∧
    ((animateNumber (some 10) 0 (some 8)).ticks n).target = 0 ∧
    ((animateNumber (some 10) 0 (some 8)).ticks n).increment = -20 ∧
    ((animateNumber (some 10) 0 (some 8)).ticks n).current = 10 - 20 * (n : ℚ) := by
  induction n with
  | zero =>
    refine ⟨rfl, rfl, ?_, ?_⟩
    · simp [Animation.ticks, animateNumber]
      norm_num
    · simp [Animation.ticks, animateNumber]
  | succ k ih =>
    obtain ⟨hact, htar, hinc, hcur⟩ := ih
    rw [ticks_succ]
    have hneg : ¬ ((0 : ℤ) : ℚ) ≤ 10 - 20 * (k : ℚ) + -20 := by
      have hk : (0 : ℚ) ≤ (k : ℚ) := Nat.cast_nonneg k
      push_cast
      linarith
    unfold Animation.tick
    rw [if_pos hact, htar, hcur, hinc, if_neg hneg]
    refine ⟨hact, rfl, rfl, ?_⟩
    show 10 - 20 * (k : ℚ) + -20 = 10 - 20 * ((k + 1 : ℕ) : ℚ)
    push_cast
    ring

/-- C18, evaluated at a failing input: the element shows 10, the target is 0 and
the duration is 8 ms, so that `ceil(duration / 16)` is one tick. The increment is -20,
so after every number of ticks the running value is below the target, the
interval timer is still set, and the number written is `10 - 20 n`, never the
target. -/
theorem animateNumber_never_clears_downward (n : Nat) :
    (animateNumber (some 10) 0 (some 8)).increment = -20 ∧
    ((animateNumber (some 10) 0 (some 8)).ticks n).timerActive = true ∧
    ((animateNumber (some 10) 0 (some 8)).ticks (n + 1)).written =
      some (10 - 20 * ((n : ℤ) + 1)) ∧
    ((animateNumber (some 10) 0 (some 8)).ticks (n + 1)).written ≠ some 0 := by
  obtain ⟨hact, htar, hinc, hcur⟩ := animateNumber_downward_state n
  have hw : ((animateNumber (some 10) 0 (some 8)).ticks (n + 1)).written =
      some (10 - 20 * ((n : ℤ) + 1)) := by
    have hneg : ¬ ((0 : ℤ) : ℚ) ≤ 10 - 20 * (n : ℚ) + -20 := by
      have hk : (0 : ℚ) ≤ (n : ℚ) := Nat.cast_nonneg n
      push_cast
      linarith
    rw [ticks_succ]
    unfold Animation.tick
    rw [if_pos hact, htar, hcur, hinc, if_neg hneg]
    show some ⌊10 - 20 * (n : ℚ) + -20⌋ = some (10 - 20 * ((n : ℤ) + 1))
    have : (10 - 20 * (n : ℚ) + -20) = ((10 - 20 * ((n : ℤ) + 1) : ℤ) : ℚ) := by
      push_cast
      ring
    rw [this, Int.floor_intCast]
  refine ⟨(animateNumber_downward_state 0).2.2.1, hact, hw, ?_⟩
  rw [hw]
  intro h
  have := Option.some.inj h
  omega

/-! ## Cache keys: theorems -/

theorem digitChar_isDigit (k : Nat) (h : k < 10) : (Nat.digitChar k).isDigit = true := by
  interval_cases k <;> decide

theorem digitValue_digitChar (k : Nat) (h : k < 10) : digitValue (Nat.digitChar k) = k := by
  interval_cases k <;> decide

theorem toDigitsCore_isDigit (fuel : Nat) :
    ∀ (n : Nat) (ds : List Char), (∀ c ∈ ds, c.isDigit = true) →
      ∀ c ∈ Nat.toDigitsCore 10 fuel n ds, c.isDigit = true := by
  induction fuel with
  | zero =>
    intro n ds hds c hc
    exact hds c (by simpa [Nat.toDigitsCore] using hc)
  | succ f ih =>
    intro n ds hds c hc
    have hd : ∀ c ∈ Nat.digitChar (n % 10) :: ds, c.isDigit = true := by
      intro c hc
      rcases List.mem_cons.mp hc with rfl | hc
      · exact digitChar_isDigit _ (Nat.mod_lt _ (by decide))
      · exact hds c hc
    simp only [Nat.toDigitsCore] at hc
    split at hc
    · exact hd c hc
    · exact ih _ _ hd c hc

theorem toDigitsCore_ne_nil (fuel : Nat) :
    ∀ (n : Nat) (ds : List Char), ds ≠ [] → Nat.toDigitsCore 10 fuel n ds ≠ [] := by
  induction fuel with
  | zero =>
    intro n ds hds
    simpa [Nat.toDigitsCore] using hds
  | succ f ih =>
    intro n ds _
    simp only [Nat.toDigitsCore]
    split
    · exact List.cons_ne_nil _ _
    · exact ih _ _ (List.cons_ne_nil _ _)

theorem toDigitsCore_value (fuel : Nat) :
    ∀ (n : Nat) (ds : List Char), n < fuel →
      digitsValue 0 (Nat.toDigitsCore 10 fuel n ds) = digitsValue n ds := by
  induction fuel with
  | zero =>
    intro n ds h
    exact absurd h (Nat.not_lt_zero n)
  | succ f ih =>
    intro n ds h
    simp only [Nat.toDigitsCore]
    split
    · rename_i h0
      have hn : n % 10 = n := Nat.mod_eq_of_lt (by omega)
      have hv := digitValue_digitChar (n % 10) (Nat.mod_lt n (by decide))
      rw [hn] at hv
      simp [digitsValue, hn, hv]
    · rename_i h0
      rw [ih (n / 10) _ (by omega)]
      simp only [digitsValue, List.foldl_cons,
        digitValue_digitChar _ (Nat.mod_lt n (by decide))]
      congr 1
      omega

theorem toDigits_isDigit (n : Nat) : ∀ c ∈ Nat.toDigits 10 n, c.isDigit = true :=
  toDigitsCore_isDigit (n + 1) n [] (by simp)

theorem toDigits_ne_nil (n : Nat) : Nat.toDigits 10 n ≠ [] := by
  unfold Nat.toDigits
  simp only [Nat.toDigitsCore]
  split
  · exact List.cons_ne_nil _ _
  · exact toDigitsCore_ne_nil _ _ _ (List.cons_ne_nil _ _)

theorem toDigits_value (n : Nat) : digitsValue 0 (Nat.toDigits 10 n) = n := by
  have h := toDigitsCore_value (n + 1) n [] (Nat.lt_succ_self n)
  simpa [Nat.toDigits, digitsValue] using h

theorem toDigits_injective (n m : Nat) (h : Nat.toDigits 10 n = Nat.toDigits 10 m) : n = m := by
  rw [← toDigits_value n, ← toDigits_value m, h]

theorem toString_nat_data (n : Nat) : (toString n).data = Nat.toDigits 10 n := rfl

theorem toString_int_data (i : Int) :
    (toString i).data =
      match i with
      | Int.ofNat m => Nat.toDigits 10 m
      | Int.negSucc m => '-' :: Nat.toDigits 10 (m + 1) := by
  cases i with
  | ofNat m => rfl
  | negSucc m => rfl

theorem toString_int_chars (i : Int) : ∀ c ∈ (toString i).data, c.isDigit = true ∨ c = '-' := by
  intro c hc
  rw [toString_int_data] at hc
  cases i with
  | ofNat m => exact Or.inl (toDigits_isDigit m c hc)
  | negSucc m =>
    rcases List.mem_cons.mp hc with rfl | hc
    · exact Or.inr rfl
    · exact Or.inl (toDigits_isDigit _ c hc)

theorem toString_int_injective (i j : Int) (h : toString i = toString j) : i = j := by
  have hd : (toString i).data = (toString j).data := congrArg String.data h
  rw [toString_int_data, toString_int_data] at hd
  cases i with
  | ofNat m =>
    cases j with
    | ofNat k =>
      have := toDigits_injective m k hd
      rw [this]
    | negSucc k =>
      exfalso
      have hmem : '-' ∈ Nat.toDigits 10 m := by
        simp only at hd
        rw [hd]
        exact List.mem_cons_self _ _
      have := toDigits_isDigit m _ hmem
      revert this
      decide
  | negSucc m =>
    cases j with
    | ofNat k =>
      exfalso
      have hmem : '-' ∈ Nat.toDigits 10 k := by
        simp only at hd
        rw [← hd]
        exact List.mem_cons_self _ _
      have := toDigits_isDigit k _ hmem
      revert this
      decide
    | negSucc k =>
      have ht : Nat.toDigits 10 (m + 1) = Nat.toDigits 10 (k + 1) := (List.cons.inj hd).2
      have := toDigits_injective _ _ ht
      have hmk : m = k := by omega
      rw [hmk]

theorem toString_int_shape (i : Int) : NumeralShape (toString i).data := by
  have hch := toString_int_chars i
  refine ⟨?_, ?_, ?_⟩
  · rw [toString_int_data]
    cases i with
    | ofNat m => exact toDigits_ne_nil m
    | negSucc m => exact List.cons_ne_nil _ _
  · intro p hp
    have hmem : 'e' ∈ (toString i).data := by
      rw [hp]
      simp
    rcases hch _ hmem with h | h
    · revert h
      decide
    · revert h
      decide
  · intro p q hpq
    left
    rw [toString_int_data] at hpq
    cases i with
    | ofNat m =>
      exfalso
      have hmem : '-' ∈ Nat.toDigits 10 m := by
        simp only at hpq
        rw [hpq]
        simp
      have := toDigits_isDigit m _ hmem
      revert this
      decide
    | negSucc m =>
      cases p with
      | nil => rfl
      | cons c p1 =>
        exfalso
        simp only [List.cons_append] at hpq
        have ht : Nat.toDigits 10 (m + 1) = p1 ++ '-' :: q := (List.cons.inj hpq).2
        have hmem : '-' ∈ Nat.toDigits 10 (m + 1) := by
          rw [ht]
          simp
        have := toDigits_isDigit _ _ hmem
        revert this
        decide

theorem numeral_split_unique (a b a1 b1 : List Char) (ha : NumeralShape a)
    (ha1 : NumeralShape a1) (h : a ++ '-' :: b = a1 ++ '-' :: b1) : a = a1 ∧ b = b1 := by
  rcases List.append_eq_append_iff.mp h with ⟨c, hc1, hc2⟩ | ⟨c, hc1, hc2⟩
  · cases c with
    | nil =>
      simp only [List.append_nil, List.nil_append] at hc1 hc2
      exact ⟨hc1.symm, (List.cons.inj hc2).2⟩
    | cons x c1 =>
      exfalso
      have hx : x = '-' := ((List.cons.inj hc2).1).symm
      rw [hx] at hc1
      rcases ha1.2.2 a c1 hc1 with hnil | ⟨r, hr⟩
      · exact ha.1 hnil
      · exact ha.2.1 r hr
  · cases c with
    | nil =>
      simp only [List.append_nil, List.nil_append] at hc1 hc2
      exact ⟨hc1, ((List.cons.inj hc2).2).symm⟩
    | cons x c1 =>
      exfalso
      have hx : x = '-' := ((List.cons.inj hc2).1).symm
      rw [hx] at hc1
      rcases ha.2.2 a1 c1 hc1 with hnil | ⟨r, hr⟩
      · exact ha1.1 hnil
      · exact ha1.2.1 r hr

theorem coordKey_data {α : Type} (print : α → String) (lat lon : α) :
    (coordKey print lat lon).data = (print lat).data ++ '-' :: (print lon).data := by
  simp [coordKey, String.data_append]

theorem coordKey_injective {α : Type} (print : α → String)
    (hinj : ∀ x y, print x = print y → x = y) (hshape : ∀ x, NumeralShape (print x).data)
    (lat lon lat1 lon1 : α) (h : coordKey print lat lon = coordKey print lat1 lon1) :
    lat = lat1 ∧ lon = lon1 := by
  have hd := congrArg String.data h
  rw [coordKey_data, coordKey_data] at hd
  obtain ⟨h1, h2⟩ := numeral_split_unique _ _ _ _ (hshape lat) (hshape lat1) hd
  exact ⟨hinj _ _ (String.ext h1), hinj _ _ (String.ext h2)⟩

theorem cacheKey_eq_coordKey (lat lon : Int) :
    cacheKey lat lon = coordKey (fun i : Int => toString i) lat lon := rfl

theorem cacheKey_injective (lat lon lat1 lon1 : Int) (h : cacheKey lat lon = cacheKey lat1 lon1) :
    lat = lat1 ∧ lon = lon1 :=
  coordKey_injective (fun i : Int => toString i) toString_int_injective toString_int_shape
    lat lon lat1 lon1 h

/-- C17: the cache key is faithful to the coordinate pair. For integer
coordinates, negative ones included, equal keys come only from equal pairs; the
same holds for every rendering of numbers that is injective and prints
JavaScript numerals, in which a hyphen is either the leading sign or the sign of
an exponent, which covers finite decimals. Hence a record stored for one pair
leaves the entry another pair reads untouched, and a cache hit returns a record
stored under the key of the pair asked for. -/
theorem cacheKey_faithful (lat lon lat1 lon1 : Int) :
    (cacheKey lat lon = cacheKey lat1 lon1 → lat = lat1 ∧ lon = lon1) ∧
    (∀ (α : Type) (print : α → String), (∀ x y, print x = print y → x = y) →
      (∀ x, NumeralShape (print x).data) →
      ∀ a b a1 b1 : α, coordKey print a b = coordKey print a1 b1 → a = a1 ∧ b = b1) ∧
    ((lat1, lon1) ≠ (lat, lon) →
      ∀ (w : WeatherService) (d fallback : WeatherData) (t0 : Int),
        mapGet (getCurrentWeatherResume w (cacheKey lat1 lon1) (.ok d) t0 fallback).1.cache
          (cacheKey lat lon) = mapGet w.cache (cacheKey lat lon)) ∧
    (∀ (w w2 : WeatherService) (d : WeatherData) (t : Int),
      getCurrentWeatherBegin w lat lon t = (w2, .returned d) →
      ∃ t0, mapGet w.cache (cacheKey lat lon) = some { data := d, timestamp := t0 }) := by
  refine ⟨cacheKey_injective lat lon lat1 lon1, ?_, ?_, ?_⟩
  · intro α print hinj hshape a b a1 b1 h
    exact coordKey_injective print hinj hshape a b a1 b1 h
  · intro hne w d fallback t0
    apply mapGet_mapSet_other
    intro hk
    obtain ⟨h1, h2⟩ := cacheKey_injective lat lon lat1 lon1 hk
    exact hne (by rw [h1, h2])
  · intro w w2 d t h
    simp only [getCurrentWeatherBegin] at h
    split at h
    · rename_i cached hc
      split at h
      · refine ⟨cached.timestamp, ?_⟩
        have hd : cached.data = d := by
          have := (Prod.mk.inj h).2
          exact Started.returned.inj this
        rw [hc, ← hd]
      · exact absurd (Prod.mk.inj h).2 (by simp)
    · exact absurd (Prod.mk.inj h).2 (by simp)

/-- C17 on pairs that differ only in where the minus sign sits: the keys of
`(1, -2)` and `(-1, 2)` are `1--2` and `-1-2`. -/
theorem cacheKey_faithful_witness :
    cacheKey 1 (-2) = "1--2" ∧ cacheKey (-1) 2 = "-1-2" ∧
    cacheKey 1 (-2) ≠ cacheKey (-1) 2 ∧
    (cacheKey 1 103 = cacheKey 1 103 → (1 : Int) = 1 ∧ (103 : Int) = 103) := by
  refine ⟨by decide, by decide, ?_, (cacheKey_faithful 1 103 1 103).1⟩
  intro h
  have := ((cacheKey_faithful 1 (-2) (-1) 2).1 h).1
  omega

end ShoreSquad
